import Mathlib

/-
Shallow embedding of scripts/extract_pre_event_data.py (pre-event structure and
property extraction pipeline) and proofs about its behaviour.

Modelling conventions:
  * Geometries are abstract handles (natural numbers).  Every geometric operation
    performed by the external shapely / geopandas libraries (intersection area,
    the boolean intersects predicate, unary union, reprojection, WKT rendering)
    is a parameter of the definition that uses it, so theorems quantify over the
    external library's behaviour.
  * A DataFrame row is an association list from column names to cell values;
    a frame carries its column list, a CRS string and its rows.
  * Python cell values are modelled by an inductive type with NaN and None as
    distinct values; Python truthiness (NaN truthy, None falsy) and pandas
    notna are modelled explicitly.
  * pandas sort_values(ascending=False) is implemented (pandas.core.sorting
    nargsort) as the reverse of an ascending argsort.  The ascending argsort is
    modelled as a stable insertion sort: one realizable behaviour of numpy's
    argsort, and its exact behaviour on the short arrays of the concrete
    inputs used below (numpy's introsort degenerates to a stable insertion
    sort on runs of at most 16 elements).  The default quicksort kind is
    unstable on larger arrays, so the program does not guarantee any
    particular order of equal keys; no claim theorem below depends on the
    model's tie order — only the concrete tie counterexample, whose
    two-element group stays on the stable small-array path.
  * Fallible Python code (KeyError on a missing merge key, AttributeError on a
    missing geometry) is modelled with Except.
-/

namespace AU

/-- Abstract handle for a shapely geometry. -/
abbrev Geom := ℕ

/-- A Python cell value as stored in a (Geo)DataFrame: string, rational number,
boolean, geometry, float NaN, or Python None. -/
inductive Val : Type where
  | vStr : String → Val
  | vNum : ℚ → Val
  | vBool : Bool → Val
  | vGeom : Geom → Val
  | vNaN : Val
  | vNone : Val
deriving DecidableEq, Repr

/-- A DataFrame row: association list from column names to values. -/
abbrev Row := List (String × Val)

/-- A (Geo)DataFrame: column list, coordinate reference system, rows. -/
structure Frame where
  cols : List String
  crs : String
  rows : List Row
deriving DecidableEq, Repr

/-- Look up a cell of a row by column name (first matching cell). -/
def alookup (k : String) : Row → Option Val
  | [] => none
  | (k', v) :: r => if k' = k then some v else alookup k r

/-- Python `row.get(k, d)` / `dict.get(k, d)`: the stored value when the key is
present (even if that value is NaN or None), the default otherwise. -/
def pyGet (r : Row) (k : String) (d : Val) : Val := (alookup k r).getD d

/-- pandas `notna`: False exactly on NaN and None. -/
def notNA : Val → Bool
  | Val.vNaN => false
  | Val.vNone => false
  | _ => true

/-- Python truthiness: False, None, 0 and the empty string are falsy;
float NaN is truthy. -/
def truthy : Val → Bool
  | Val.vBool b => b
  | Val.vNaN => true
  | Val.vNone => false
  | Val.vNum q => decide (q ≠ 0)
  | Val.vStr s => decide (s ≠ "")
  | Val.vGeom _ => true

/-- Remove every cell of the named column from a row
(row level part of `df.drop(columns=[c])`). -/
def dropColRow (c : String) (r : Row) : Row := r.filter (fun p => decide (p.1 ≠ c))

/-- Row-level column assignment `df[c] = v`: replaces the existing cell of the
column, or appends a new cell when the column is new. -/
def setColRow (c : String) (v : Val) (r : Row) : Row := dropColRow c r ++ [(c, v)]

/-- Frame-level column assignment `df[c] = f(row)`. -/
def addColFrame (c : String) (f : Row → Val) (fr : Frame) : Frame :=
  { cols := if c ∈ fr.cols then fr.cols else fr.cols ++ [c]
    crs := fr.crs
    rows := fr.rows.map (fun r => setColRow c (f r) r) }

/-- Frame-level `df.drop(columns=[c])`. -/
def dropColFrame (c : String) (fr : Frame) : Frame :=
  { cols := fr.cols.filter (fun x => decide (x ≠ c))
    crs := fr.crs
    rows := fr.rows.map (dropColRow c) }

/-- Column selection `df[cs]`.  In `join_structure_property` this is only ever
applied with `cs` a sublist of the frame's columns (`available_cols`), so the
KeyError case of pandas cannot arise there and is not modelled. -/
def selectCols (cs : List String) (fr : Frame) : Frame :=
  { cols := cs
    crs := fr.crs
    rows := fr.rows.map (fun r => cs.filterMap (fun c => (alookup c r).map (fun v => (c, v)))) }

/-- The overlapping (suffix-renamed) columns of a pandas merge: columns present
on both sides other than the key. -/
def mergeOverlap (key : String) (left right : Frame) : List String :=
  left.cols.filter (fun c => decide (c ∈ right.cols) && decide (c ≠ key))

/-- Suffix renaming of one column name of a pandas merge. -/
def renCol (overlap : List String) (suf c : String) : String :=
  if c ∈ overlap then c ++ suf else c

/-- The non-key columns of the right side of a pandas merge. -/
def rightDataCols (key : String) (right : Frame) : List String :=
  right.cols.filter (fun c => decide (c ≠ key))

/-- The join-result rows produced from one left row: one combined row per
matching right row, or a single NaN-padded row when there is no match. -/
def mergeRowsFor (key lsuf rsuf : String) (left right : Frame) (lr : Row) : List Row :=
  let overlap := mergeOverlap key left right
  let lcells := left.cols.map (fun c => (renCol overlap lsuf c, pyGet lr c Val.vNaN))
  let ms := right.rows.filter (fun rr => decide (alookup key rr = alookup key lr))
  if ms.isEmpty then
    [lcells ++ (rightDataCols key right).map (fun c => (renCol overlap rsuf c, Val.vNaN))]
  else
    ms.map (fun rr =>
      lcells ++ (rightDataCols key right).map (fun c => (renCol overlap rsuf c, pyGet rr c Val.vNaN)))

/-- The column list of a pandas merge result: left columns then non-key right
columns, overlapping ones suffix-renamed. -/
def mergeCols (key lsuf rsuf : String) (left right : Frame) : List String :=
  left.cols.map (renCol (mergeOverlap key left right) lsuf) ++
    (rightDataCols key right).map (renCol (mergeOverlap key left right) rsuf)

/-- The successful case of a pandas left outer merge. -/
def mergeLeftOk (key lsuf rsuf : String) (left right : Frame) : Frame :=
  { cols := mergeCols key lsuf rsuf left right
    crs := left.crs
    rows := left.rows.flatMap (mergeRowsFor key lsuf rsuf left right) }

/-- pandas left outer merge `left.merge(right, on=key, how='left',
suffixes=(lsuf, rsuf))`.  Columns present on both sides other than the key are
renamed with the suffixes; left rows without a match get NaN in every
right-hand column; a missing key column raises KeyError. -/
def mergeLeft (key lsuf rsuf : String) (left right : Frame) : Except String Frame :=
  if key ∈ left.cols then
    if key ∈ right.cols then Except.ok (mergeLeftOk key lsuf rsuf left right)
    else Except.error "KeyError"
  else Except.error "KeyError"

/-- The documented parcel attribute subset selected by `join_structure_property`
(`property_cols` in the source). -/
def property_cols : List String :=
  ["parcel_id", "geometry",
   "has_pool", "pools_total_area",
   "has_trampoline", "trampoline_ct",
   "has_wooden_deck", "wooden_deck_area",
   "has_enclosure", "enclosure_area",
   "has_tennis_court", "tennis_court_ct",
   "has_basketball_court", "basketball_court_ct",
   "has_sport_pitch", "sport_pitch_ct"]

/-- `row['geometry_structure'].intersection(row['geometry_property']).area`,
with the external intersection-area operation `ia` as a parameter.  The Python
expression raises on a malformed row; such rows are given area 0 here, which is
consistent on both sides of every comparison proved below. -/
def rowOverlapArea (ia : Geom → Geom → ℚ) (r : Row) : ℚ :=
  match alookup "geometry_structure" r, alookup "geometry_property" r with
  | some (Val.vGeom a), some (Val.vGeom b) => ia a b
  | _, _ => 0

/-- The numeric value of the temporary `overlap_area` ranking column. -/
def oaVal (r : Row) : ℚ :=
  match alookup "overlap_area" r with
  | some (Val.vNum q) => q
  | _ => 0

/-- Stable insertion of a row into an ascending-sorted list: the inserted row
(which precedes the rest in input order) is placed before the first element of
greater-or-equal weight, so equal-weight rows keep their input order. -/
def insertAsc (w : Row → ℚ) (x : Row) : List Row → List Row
  | [] => [x]
  | y :: ys => if w x ≤ w y then x :: y :: ys else y :: insertAsc w x ys

/-- Ascending insertion sort, modelling the argsort underlying pandas
`sort_values`.  This fixes one realizable tie order (the stable one, which is
also numpy's actual behaviour on runs of at most 16 elements); numpy's default
quicksort argsort is unstable in general, so no theorem below relies on the
tie order except at concrete small inputs, where this is the real one. -/
def sortAsc (w : Row → ℚ) : List Row → List Row
  | [] => []
  | x :: xs => insertAsc w x (sortAsc w xs)

/-- pandas `sort_values(by, ascending=False)`: pandas computes the ascending
argsort and reverses it (`pandas.core.sorting.nargsort`).  Tied keys therefore
do not keep input order — on the stable argsort path they come out in reverse
input order, and with the unstable default argsort kind their relative order
is not guaranteed at all. -/
def sortDesc (w : Row → ℚ) (l : List Row) : List Row := (sortAsc w l).reverse

/-- Fuel-driven recursion for the keep-first deduplication (the fuel is an
upper bound on the list length, making the definition structural and hence
computable by reduction). -/
def dedupGo (key : Row → Option Val) : ℕ → List Row → List Row
  | _, [] => []
  | 0, _ :: _ => []
  | n + 1, x :: xs => x :: dedupGo key n (xs.filter (fun y => decide (key y ≠ key x)))

/-- pandas `drop_duplicates(subset=key, keep='first')`: keep the first row of
each key value, preserving row order. -/
def dedupKeepFirst (key : Row → Option Val) (l : List Row) : List Row :=
  dedupGo key l.length l

/-- The `structure_id` key of a join-result row. -/
def sidOf (r : Row) : Option Val := alookup "structure_id" r

/-- `merged['geometry_property'].notna()` for one row. -/
def hasPropertyGeom (r : Row) : Bool :=
  match alookup "geometry_property" r with
  | some v => notNA v
  | none => false

/-- The MFD deduplication step of `join_structure_property`: add the temporary
`overlap_area` column, sort by it descending (pandas reversed ascending
argsort), keep the first row of each `structure_id`, and drop the temporary
column again. -/
def mfdDedup (ia : Geom → Geom → ℚ) (merged : Frame) : Frame :=
  let annotated := addColFrame "overlap_area" (fun r => Val.vNum (rowOverlapArea ia r)) merged
  dropColFrame "overlap_area"
    { cols := annotated.cols
      crs := annotated.crs
      rows := dedupKeepFirst sidOf (sortDesc oaVal annotated.rows) }

/-- `available_cols`: the documented parcel columns actually present in the
parcel collection. -/
def availableCols (properties : Frame) : List String :=
  property_cols.filter (fun c => decide (c ∈ properties.cols))

/-- The join and match-filter stage of `join_structure_property`: left-join the
structures with the available parcel columns on `parcel_id` (suffixes
`_structure` / `_property`), then keep only rows with a property match
(`merged['geometry_property'].notna()`). -/
def joinMergedFiltered (structures properties : Frame) : Except String Frame :=
  match mergeLeft "parcel_id" "_structure" "_property" structures
      (selectCols (availableCols properties) properties) with
  | Except.error e => Except.error e
  | Except.ok merged0 =>
    Except.ok { cols := merged0.cols, crs := merged0.crs,
                rows := merged0.rows.filter hasPropertyGeom }

/-- `join_structure_property(structures, properties)` from the source:
select the available documented parcel columns, left-join on `parcel_id` with
suffixes `(_structure, _property)`, drop structures without a property match,
and, when MFD deduplication is enabled and the result is non-empty, rank the
candidate rows of each `structure_id` by building-parcel intersection area
(descending) and keep the first, finally dropping the temporary `overlap_area`
column.  `dedup` is the config flag ENABLE_MFD_DEDUPLICATION and `ia` the
external intersection-area operation. -/
def join_structure_property (dedup : Bool) (ia : Geom → Geom → ℚ)
    (structures properties : Frame) : Except String Frame :=
  match joinMergedFiltered structures properties with
  | Except.error e => Except.error e
  | Except.ok merged =>
    if merged.rows.isEmpty then Except.ok merged
    else if dedup then Except.ok (mfdDedup ia merged)
    else Except.ok merged

/-- The (structure_id, geometry) pairs handed to the external regularization
routine: `merged_data[['structure_id', 'geometry_structure']]` re-projected to
the planar UTM system `toUTM`. -/
def regPairs (toUTM : Geom → Geom) (merged : Frame) : List (Val × Geom) :=
  merged.rows.filterMap (fun r =>
    match alookup "structure_id" r, alookup "geometry_structure" r with
    | some sid, some (Val.vGeom g) => some (sid, toUTM g)
    | _, _ => none)

/-- Association-list lookup with Val keys (first match; `dict(zip(..))` keeps
the last duplicate instead, but no claim involves duplicate identifiers). -/
def vlookup {β : Type} (k : Val) : List (Val × β) → Option β
  | [] => none
  | (k', b) :: l => if k' = k then some b else vlookup k l

/-- `regularized_dict = dict(zip(regularized['structure_id'],
regularized.geometry))` after the re-projection back (`fromUTM`) to geographic
coordinates, where `reg` is the external `regularize_geodataframe` routine. -/
def regDict (toUTM fromUTM : Geom → Geom)
    (reg : List (Val × Geom) → List (Val × Geom)) (merged : Frame) : List (Val × Geom) :=
  (reg (regPairs toUTM merged)).map (fun p => (p.1, fromUTM p.2))

/-- `merged_data['geometry_structure'] = merged_data['structure_id']
.map(regularized_dict)` for one row: pandas `Series.map` with a dict yields the
dict value for present keys and NaN for absent ones. -/
def regUpdateRow (dict : List (Val × Geom)) (r : Row) : Row :=
  setColRow "geometry_structure"
    (match alookup "structure_id" r with
     | some sid =>
       match vlookup sid dict with
       | some g => Val.vGeom g
       | none => Val.vNaN
     | none => Val.vNaN) r

/-- `regularize_footprints(merged_data)` from the source.  `avail` is the
REGULARIZATION_AVAILABLE flag (the adapter is a passthrough when the external
library is missing); `toUTM` / `fromUTM` are the re-projections into and out of
the locally accurate planar system; `reg` is the external orthogonalization
routine.  Vertex counting and timing are logging only and not modelled. -/
def regularize_footprints (avail : Bool) (toUTM fromUTM : Geom → Geom)
    (reg : List (Val × Geom) → List (Val × Geom)) (merged : Frame) : Frame :=
  if avail then
    let dict := regDict toUTM fromUTM reg merged
    { cols := merged.cols, crs := merged.crs, rows := merged.rows.map (regUpdateRow dict) }
  else merged

/-- ROOF_SHAPE_MAP from the source (dict with a None key). -/
def ROOF_SHAPE_MAP : List (Val × Val) :=
  [(Val.vStr "gable", Val.vStr "gable"), (Val.vStr "hip", Val.vStr "hip"),
   (Val.vStr "flat", Val.vStr "flat"), (Val.vNone, Val.vStr "Unknown")]

/-- ROOF_MATERIAL_MAP from the source. -/
def ROOF_MATERIAL_MAP : List (Val × Val) :=
  [(Val.vStr "metal", Val.vStr "metal"), (Val.vStr "concrete_tile", Val.vStr "tile"),
   (Val.vStr "clay_tile", Val.vStr "tile"), (Val.vStr "tile", Val.vStr "tile"),
   (Val.vStr "solid_concrete", Val.vStr "membrane"),
   (Val.vStr "other_material", Val.vStr "Unknown"), (Val.vNone, Val.vStr "Unknown")]

/-- ROOF_CONDITION_MAP from the source. -/
def ROOF_CONDITION_MAP : List (Val × Val) :=
  [(Val.vStr "good", Val.vNum 4), (Val.vStr "fair", Val.vNum 3),
   (Val.vStr "poor", Val.vNum 2), (Val.vStr "excellent", Val.vNum 5),
   (Val.vNone, Val.vNum 3)]

/-- Python `round`: banker's rounding, halves to the even integer. -/
def pyRound (q : ℚ) : ℤ :=
  if q - ⌊q⌋ < 1 / 2 then ⌊q⌋
  else if 1 / 2 < q - ⌊q⌋ then ⌊q⌋ + 1
  else if ⌊q⌋ % 2 = 0 then ⌊q⌋ else ⌊q⌋ + 1

/-- The geometries of a frame's `geometry` column. -/
def geomsOf (fr : Frame) : List Geom :=
  fr.rows.filterMap (fun r =>
    match alookup "geometry" r with
    | some (Val.vGeom g) => some g
    | _ => none)

/-- The precomputed auxiliary union (`solar_union` / `water_union`): None when
the collection is empty, and None (with a logged warning) when the external
`union_all` raises; `uAll` is the external unary-union operation. -/
def frameUnion (uAll : List Geom → Except Unit Geom) (fr : Frame) : Option Geom :=
  if fr.rows.isEmpty then none
  else
    match uAll (geomsOf fr) with
    | Except.ok g => some g
    | Except.error _ => none

/-- The guarded per-row intersection test
`try: has_x = geom.intersects(union) except: pass`: False when there is no
union, when the external test returns False, and when it raises. -/
def safeIntersects (test : Geom → Geom → Except Unit Bool) (g : Geom) : Option Geom → Bool
  | none => false
  | some u =>
    match test g u with
    | Except.ok b => b
    | Except.error _ => false

/-- `'TRUE' if b else 'FALSE'`. -/
def tfBool (b : Bool) : Val := if b then Val.vStr "TRUE" else Val.vStr "FALSE"

/-- The fixed 75-column output schema, in the record order of the source. -/
def preevent_cols : List String :=
  ["BUILDINGS_IDS", "PEID", "PARCELWKT",
   "B.CAPTURE_PROJECT", "METADATAVERSION", "B.LAYERNAME", "B.IMAGEID",
   "B.CHILD_AOI", "B.ORTHOVSNADIR", "B.CAMERATECHNOLOGY",
   "B.IMGDATE", "B.IMGGSD",
   "POOLAREA", "TRAMPOLINE", "TRAMPSCR", "DECK", "DECKSCR", "POOL", "POOLSCR",
   "ENCLOSURE", "ENCLOSUSCR", "DIVINGBOAR", "DIVINGSCR", "WATERSLIDE",
   "WATSLIDSCR", "PLAYGROUND", "PLAYGSCR", "SPORTCOURT", "SPORTSCR",
   "PRIMARYSTR",
   "ROOFTOPGEO", "GROUNDELEV", "DETECTSCR", "ROOFSHAPE", "ROOFSHASCR",
   "ROOFMATERI", "ROOFMATSCR", "ROOFCONDIT", "ROOFSOLAR", "ROOFTREE",
   "DST5", "DSB5", "DST30", "DSB30", "DST100", "DSB100", "DST200", "DSB200",
   "CATASTROPHESCORE", "ROOFCONDIT_MISSINGMATERIALPERCEN", "ROOFCONDIT_TARPPERCEN",
   "ROOFCONDIT_DEBRISPERCENT", "ROOFCONDIT_DISCOLORDETECT", "ROOFCONDIT_DISCOLORPERCEN",
   "ROOFCONDIT_DISCOLORSCORE", "DAMAGE_LEVEL", "HISTOSCORE",
   "CAPTURE_PROJECT", "LAYERNAME", "IMAGEID", "CHILD_AOI", "ORTHOVSNADIR",
   "CAMERATECHNOLOGY", "IMGDATE", "IMGGSD",
   "DSKWT5", "DSKWT30", "DSKWT100", "DSKWT200",
   "task_structures_info", "structures_count", "property_id",
   "ROOFCONDIT_STRUCTURALDAMAGEPERCEN",
   "ROOFWATERHEATER", "geometry"]

/-- The per-row body of the transformation loop of
`transform_to_preevent_schema`: builds one 75-field output record.  The Python
loop raises (AttributeError) when a row's structure or property geometry is not
an actual geometry (`.wkt` on NaN); that is the Except.error case.  `test` is
the external shapely intersects predicate (which may raise), `wkt` the external
WKT rendering. -/
def transformRow (test : Geom → Geom → Except Unit Bool) (wkt : Geom → String)
    (solarU waterU : Option Geom) (meta : Row) (r : Row) : Except String Row :=
  match alookup "geometry_structure" r, alookup "geometry_property" r with
  | some (Val.vGeom structure_geom), some (Val.vGeom property_geom) =>
    let has_solar := safeIntersects test structure_geom solarU
    let has_water_heater := safeIntersects test structure_geom waterU
    let has_pool := truthy (pyGet r "has_pool" (Val.vBool false))
    let has_trampoline := truthy (pyGet r "has_trampoline" (Val.vBool false))
    let has_wooden_deck := truthy (pyGet r "has_wooden_deck" (Val.vBool false))
    let has_enclosure := truthy (pyGet r "has_enclosure" (Val.vBool false))
    let has_sport :=
      truthy (pyGet r "has_tennis_court" (Val.vBool false)) ||
      truthy (pyGet r "has_basketball_court" (Val.vBool false)) ||
      (if notNA (pyGet r "has_sport_pitch" Val.vNone) then
        truthy (pyGet r "has_sport_pitch" (Val.vBool false))
      else false)
    let roof_shape :=
      (vlookup (pyGet r "roof_shape_majority" Val.vNone) ROOF_SHAPE_MAP).getD (Val.vStr "Unknown")
    let roof_material :=
      (vlookup (pyGet r "roof_material_majority" Val.vNone) ROOF_MATERIAL_MAP).getD
        (Val.vStr "Unknown")
    let roof_condition :=
      (vlookup (pyGet r "roof_condition_general" Val.vNone) ROOF_CONDITION_MAP).getD (Val.vNum 3)
    let tree_overlap : ℤ :=
      if notNA (pyGet r "roof_tree_overlap_pct" Val.vNone) then
        match pyGet r "roof_tree_overlap_pct" (Val.vNum 0) with
        | Val.vNum q => pyRound q
        | _ => 0
      else 0
    let is_primary := tfBool (truthy (pyGet r "is_primary" (Val.vBool false)))
    Except.ok
      [("BUILDINGS_IDS", pyGet r "structure_id" Val.vNone),
       ("PEID", pyGet r "structure_id" Val.vNone),
       ("PARCELWKT", Val.vStr (wkt property_geom)),
       ("B.CAPTURE_PROJECT", pyGet r "vexcel_collection_name" Val.vNone),
       ("METADATAVERSION", Val.vStr "3.90.1"),
       ("B.LAYERNAME", Val.vStr "bluesky-ultra-oceania"),
       ("B.IMAGEID", Val.vNone),
       ("B.CHILD_AOI", pyGet r "vexcel_collection_name" Val.vNone),
       ("B.ORTHOVSNADIR", Val.vStr "ortho"),
       ("B.CAMERATECHNOLOGY", Val.vStr "UltraCam_Osprey_4.1_f120"),
       ("B.IMGDATE", Val.vNone),
       ("B.IMGGSD", pyGet meta "avg_gsd" Val.vNone),
       ("POOLAREA", pyGet r "pools_total_area" (Val.vNum 0)),
       ("TRAMPOLINE", tfBool has_trampoline),
       ("TRAMPSCR", Val.vNone),
       ("DECK", tfBool has_wooden_deck),
       ("DECKSCR", Val.vNone),
       ("POOL", tfBool has_pool),
       ("POOLSCR", Val.vNone),
       ("ENCLOSURE", tfBool has_enclosure),
       ("ENCLOSUSCR", Val.vNone),
       ("DIVINGBOAR", Val.vNone),
       ("DIVINGSCR", Val.vNone),
       ("WATERSLIDE", Val.vNone),
       ("WATSLIDSCR", Val.vNone),
       ("PLAYGROUND", Val.vNone),
       ("PLAYGSCR", Val.vNone),
       ("SPORTCOURT", tfBool has_sport),
       ("SPORTSCR", Val.vNone),
       ("PRIMARYSTR", is_primary),
       ("ROOFTOPGEO", Val.vStr (wkt structure_geom)),
       ("GROUNDELEV", Val.vNone),
       ("DETECTSCR", Val.vNum 1),
       ("ROOFSHAPE", roof_shape),
       ("ROOFSHASCR", Val.vNone),
       ("ROOFMATERI", roof_material),
       ("ROOFMATSCR", Val.vNum 1),
       ("ROOFCONDIT", roof_condition),
       ("ROOFSOLAR", if has_solar then Val.vStr "SOLAR PANEL" else Val.vStr "NO SOLAR PANEL"),
       ("ROOFTREE", Val.vNum (tree_overlap : ℚ)),
       ("DST5", Val.vNone), ("DSB5", Val.vNone),
       ("DST30", Val.vNone), ("DSB30", Val.vNone),
       ("DST100", Val.vNone), ("DSB100", Val.vNone),
       ("DST200", Val.vNone), ("DSB200", Val.vNone),
       ("CATASTROPHESCORE", Val.vNum 0),
       ("ROOFCONDIT_MISSINGMATERIALPERCEN", Val.vNum 0),
       ("ROOFCONDIT_TARPPERCEN", Val.vNum 0),
       ("ROOFCONDIT_DEBRISPERCENT", Val.vNum 0),
       ("ROOFCONDIT_DISCOLORDETECT", Val.vStr "FALSE"),
       ("ROOFCONDIT_DISCOLORPERCEN", Val.vNum 0),
       ("ROOFCONDIT_DISCOLORSCORE", Val.vNum 0),
       ("DAMAGE_LEVEL", Val.vNone),
       ("HISTOSCORE", Val.vNum 0),
       ("CAPTURE_PROJECT", pyGet meta "collection" Val.vNone),
       ("LAYERNAME", pyGet meta "layer" Val.vNone),
       ("IMAGEID", Val.vNone),
       ("CHILD_AOI", pyGet meta "event_id" Val.vNone),
       ("ORTHOVSNADIR", Val.vStr "ortho"),
       ("CAMERATECHNOLOGY", Val.vStr "UltraCam_Osprey_4.1_f120"),
       ("IMGDATE", Val.vNone),
       ("IMGGSD", pyGet meta "avg_gsd" Val.vNone),
       ("DSKWT5", Val.vNone),
       ("DSKWT30", Val.vNone),
       ("DSKWT100", Val.vNone),
       ("DSKWT200", Val.vNone),
       ("task_structures_info", Val.vNone),
       ("structures_count", Val.vNone),
       ("property_id", Val.vNone),
       ("ROOFCONDIT_STRUCTURALDAMAGEPERCEN", Val.vNum 0),
       ("ROOFWATERHEATER",
        if has_water_heater then Val.vStr "WATER HEATER" else Val.vStr "NO WATER HEATER"),
       ("geometry", Val.vGeom structure_geom)]
  | _, _ => Except.error "AttributeError"

/-- `transform_to_preevent_schema(merged_data, solar_panels, water_heaters,
aoi_metadata)` from the source: precompute the two auxiliary unions, then map
every association record to one fixed-schema output record. -/
def transform_to_preevent_schema (test : Geom → Geom → Except Unit Bool)
    (wkt : Geom → String) (uAll : List Geom → Except Unit Geom)
    (merged solar water : Frame) (meta : Row) : Except String Frame :=
  let solarU := frameUnion uAll solar
  let waterU := frameUnion uAll water
  match merged.rows.mapM (transformRow test wkt solarU waterU meta) with
  | Except.ok recs => Except.ok { cols := preevent_cols, crs := "EPSG:4326", rows := recs }
  | Except.error e => Except.error e

/-- `gdf.to_crs('EPSG:4326')` for one row: re-projects the active geometry
column. -/
def reprojectRow (reproj : Geom → Geom) (r : Row) : Row :=
  match alookup "geometry" r with
  | some (Val.vGeom g) => setColRow "geometry" (Val.vGeom (reproj g)) r
  | _ => r

/-- One element of the mask `gdf.intersects(aoi_geometry)`: the external
boundary-inclusive intersects predicate `p` applied to the row's geometry
(False for a missing geometry, as in geopandas). -/
def rowIntersectsAOI (p : Geom → Bool) (r : Row) : Bool :=
  match alookup "geometry" r with
  | some (Val.vGeom g) => p g
  | _ => false

/-- `spatial_filter(gdf, aoi_geometry)` from the source: re-project to
EPSG:4326 when needed, then keep exactly the rows whose geometry intersects
the precise AOI polygon.  `reproj` is the external re-projection and `p` the
external intersects-with-AOI predicate. -/
def spatial_filter (reproj : Geom → Geom) (p : Geom → Bool) (gdf : Frame) : Frame :=
  let g2 :=
    if gdf.crs = "EPSG:4326" then gdf
    else { cols := gdf.cols, crs := "EPSG:4326", rows := gdf.rows.map (reprojectRow reproj) }
  { cols := g2.cols, crs := g2.crs, rows := g2.rows.filter (rowIntersectsAOI p) }

/-- A rectangular geographic extent (minx, miny, maxx, maxy). -/
structure Rect where
  minx : ℚ
  miny : ℚ
  maxx : ℚ
  maxy : ℚ
deriving DecidableEq, Repr

/-- STATE_BOUNDS from the source, in declaration order. -/
def STATE_BOUNDS : List (String × Rect) :=
  [("NSW", ⟨141.883391, -36.120228, 153.636795, -28.165654⟩),
   ("VIC", ⟨141.988271, -38.634372, 146.987789, -34.119868⟩),
   ("QLD", ⟨145.596151, -28.574471, 153.551443, -16.723084⟩),
   ("WA", ⟨115.582252, -33.4476, 116.320862, -31.485581⟩),
   ("SA", ⟨137.501566, -35.588245, 140.800519, -32.465986⟩),
   ("ACT", ⟨148.973766, -35.480152, 149.231645, -35.139768⟩),
   ("TAS", ⟨145.653797, -43.105749, 147.534922, -40.954031⟩),
   ("NT", ⟨130.818874, -12.629241, 131.177811, -12.349308⟩)]

/-- `determine_states(aoi_geometry)` from the source: walk the static
STATE_BOUNDS table in declaration order and append every state whose extent
rectangle intersects the AOI geometry.  `intersects` is the external shapely
test `aoi_geometry.intersects(box(*bounds))` — a true polygon-against-rectangle
intersection of the fixed AOI geometry, given here as a function of the
rectangle. -/
def determine_states (intersects : Rect → Bool) : List String :=
  STATE_BOUNDS.foldl (fun acc p => if intersects p.2 then acc ++ [p.1] else acc) []

/-- The explicitly typed empty parcel collection
`gpd.GeoDataFrame(columns=['parcel_id', 'geometry'], crs='EPSG:4326')`. -/
def emptyParcels : Frame := { cols := ["parcel_id", "geometry"], crs := "EPSG:4326", rows := [] }

/-- `pd.concat(all_properties, ignore_index=True)` (single-frame case
included): columns of the first part, rows concatenated. -/
def concatFrames (fs : List Frame) : Frame :=
  match fs with
  | [] => emptyParcels
  | f :: _ => { cols := f.cols, crs := f.crs, rows := fs.flatMap Frame.rows }

/-- `load_property_data(states, aoi_bounds)` from the source: per-state loads
that may fail (None — missing file or read error, logged and skipped); if no
state yields parcels, return the explicitly typed empty collection, else
concatenate.  `loadState` is the external per-state reader. -/
def load_property_data (states : List String) (loadState : String → Option Frame) : Frame :=
  let parts := states.filterMap loadState
  if parts.isEmpty then emptyParcels
  else concatFrames parts

/-! Helper lemmas about row and column operations. -/

theorem alookup_append (k : String) (r₁ r₂ : Row) :
    alookup k (r₁ ++ r₂) = (alookup k r₁).or (alookup k r₂) := by
  induction r₁ with
  | nil => simp [alookup]
  | cons p r ih =>
    by_cases h : p.1 = k
    · simp [alookup, h]
    · simp [alookup, h, ih]

theorem alookup_dropColRow (c k : String) (r : Row) :
    alookup k (dropColRow c r) = if c = k then none else alookup k r := by
  induction r with
  | nil => simp [dropColRow, alookup]
  | cons p r ih =>
    obtain ⟨q, v⟩ := p
    by_cases hc : q = c
    · have h1 : dropColRow c ((q, v) :: r) = dropColRow c r := by
        simp [dropColRow, List.filter_cons, hc]
      rw [h1, ih]
      by_cases hk : c = k
      · simp [hk]
      · have hqk : ¬ q = k := by rw [hc]; exact hk
        simp [alookup, hk, hqk]
    · have h1 : dropColRow c ((q, v) :: r) = (q, v) :: dropColRow c r := by
        simp [dropColRow, List.filter_cons, hc]
      rw [h1]
      by_cases hk : q = k
      · have hck : ¬ c = k := fun h => hc (by rw [hk, h])
        simp [alookup, hk, hck]
      · simp [alookup, hk, ih]

theorem alookup_setColRow (c k : String) (v : Val) (r : Row) :
    alookup k (setColRow c v r) = if c = k then some v else alookup k r := by
  unfold setColRow
  rw [alookup_append, alookup_dropColRow]
  by_cases h : c = k <;> simp [h, alookup]

theorem sidOf_setColRow_oa (v : Val) (r : Row) :
    sidOf (setColRow "overlap_area" v r) = sidOf r := by
  simp [sidOf, alookup_setColRow]

theorem sidOf_dropColRow_oa (r : Row) :
    sidOf (dropColRow "overlap_area" r) = sidOf r := by
  simp [sidOf, alookup_dropColRow]

theorem rowOverlapArea_setColRow_oa (ia : Geom → Geom → ℚ) (v : Val) (r : Row) :
    rowOverlapArea ia (setColRow "overlap_area" v r) = rowOverlapArea ia r := by
  simp [rowOverlapArea, alookup_setColRow]

theorem rowOverlapArea_dropColRow_oa (ia : Geom → Geom → ℚ) (r : Row) :
    rowOverlapArea ia (dropColRow "overlap_area" r) = rowOverlapArea ia r := by
  simp [rowOverlapArea, alookup_dropColRow]

theorem oaVal_setColRow_oa (q : ℚ) (r : Row) :
    oaVal (setColRow "overlap_area" (Val.vNum q) r) = q := by
  simp [oaVal, alookup_setColRow]

theorem dropColRow_setColRow (c : String) (v : Val) (r : Row) :
    dropColRow c (setColRow c v r) = dropColRow c r := by
  unfold setColRow dropColRow
  rw [List.filter_append, List.filter_filter]
  simp

/-! Helper lemmas about the stable sort and the keep-first deduplication. -/

theorem mem_insertAsc (w : Row → ℚ) (x a : Row) (l : List Row) :
    a ∈ insertAsc w x l ↔ a = x ∨ a ∈ l := by
  induction l with
  | nil => simp [insertAsc]
  | cons y ys ih =>
    by_cases h : w x ≤ w y
    · simp [insertAsc, h]
    · simp only [insertAsc, if_neg h, List.mem_cons, ih]
      tauto

theorem mem_sortAsc (w : Row → ℚ) (a : Row) (l : List Row) :
    a ∈ sortAsc w l ↔ a ∈ l := by
  induction l with
  | nil => simp [sortAsc]
  | cons x xs ih => simp [sortAsc, mem_insertAsc, ih]

theorem mem_sortDesc (w : Row → ℚ) (a : Row) (l : List Row) :
    a ∈ sortDesc w l ↔ a ∈ l := by
  simp [sortDesc, mem_sortAsc]

theorem pairwise_insertAsc (w : Row → ℚ) (x : Row) (l : List Row)
    (h : l.Pairwise (fun a b => w a ≤ w b)) :
    (insertAsc w x l).Pairwise (fun a b => w a ≤ w b) := by
  induction l with
  | nil => simp [insertAsc]
  | cons y ys ih =>
    rcases List.pairwise_cons.mp h with ⟨hy, hys⟩
    by_cases hxy : w x ≤ w y
    · simp only [insertAsc, if_pos hxy]
      refine List.pairwise_cons.mpr ⟨?_, h⟩
      intro b hb
      rcases List.mem_cons.mp hb with rfl | hb
      · exact hxy
      · exact le_trans hxy (hy b hb)
    · simp only [insertAsc, if_neg hxy]
      refine List.pairwise_cons.mpr ⟨?_, ih hys⟩
      intro b hb
      rcases (mem_insertAsc w x b ys).mp hb with rfl | hb
      · exact (not_le.mp hxy).le
      · exact hy b hb

theorem sortAsc_pairwise (w : Row → ℚ) (l : List Row) :
    (sortAsc w l).Pairwise (fun a b => w a ≤ w b) := by
  induction l with
  | nil => simp [sortAsc]
  | cons x xs ih => exact pairwise_insertAsc w x _ ih

theorem sortDesc_pairwise (w : Row → ℚ) (l : List Row) :
    (sortDesc w l).Pairwise (fun a b => w b ≤ w a) := by
  unfold sortDesc
  exact List.pairwise_reverse.mpr (sortAsc_pairwise w l)

theorem dedupGo_fuel_irrel (key : Row → Option Val) :
    ∀ n m (l : List Row), l.length ≤ n → l.length ≤ m →
      dedupGo key n l = dedupGo key m l := by
  intro n
  induction n with
  | zero =>
    intro m l hn _
    cases l with
    | nil => cases m <;> rfl
    | cons x xs => simp at hn
  | succ n ih =>
    intro m l hn hm
    cases l with
    | nil => cases m <;> rfl
    | cons x xs =>
      cases m with
      | zero => simp at hm
      | succ m =>
        show x :: dedupGo key n _ = x :: dedupGo key m _
        congr 1
        exact ih m _
          (le_trans (List.length_filter_le _ _) (Nat.succ_le_succ_iff.mp hn))
          (le_trans (List.length_filter_le _ _) (Nat.succ_le_succ_iff.mp hm))

theorem dedupKeepFirst_cons (key : Row → Option Val) (x : Row) (xs : List Row) :
    dedupKeepFirst key (x :: xs) =
      x :: dedupKeepFirst key (xs.filter (fun y => decide (key y ≠ key x))) := by
  show x :: dedupGo key xs.length (xs.filter (fun y => decide (key y ≠ key x))) = _
  congr 1
  exact dedupGo_fuel_irrel key xs.length _ _ (List.length_filter_le _ _) le_rfl

theorem dedupKeepFirst_ind (key : Row → Option Val) (motive : List Row → Prop)
    (base : motive [])
    (step : ∀ x xs, motive (xs.filter (fun y => decide (key y ≠ key x))) → motive (x :: xs)) :
    ∀ l, motive l := by
  have main : ∀ n (l : List Row), l.length ≤ n → motive l := by
    intro n
    induction n with
    | zero =>
      intro l hl
      cases l with
      | nil => exact base
      | cons x xs => simp at hl
    | succ n ih =>
      intro l hl
      cases l with
      | nil => exact base
      | cons x xs =>
        exact step x xs
          (ih _ (le_trans (List.length_filter_le _ _) (Nat.succ_le_succ_iff.mp hl)))
  exact fun l => main l.length l le_rfl

theorem dedupKeepFirst_subset (key : Row → Option Val) (l : List Row) :
    ∀ a ∈ dedupKeepFirst key l, a ∈ l := by
  induction l using dedupKeepFirst_ind key with
  | base => simp [dedupKeepFirst, dedupGo]
  | step x xs ih =>
    intro a ha
    rw [dedupKeepFirst_cons] at ha
    simp only [List.mem_cons] at ha
    rcases ha with ha | ha
    · simp [ha]
    · exact List.mem_cons_of_mem x (List.mem_of_mem_filter (ih a ha))

theorem dedupKeepFirst_keys_nodup (key : Row → Option Val) (l : List Row) :
    ((dedupKeepFirst key l).map key).Nodup := by
  induction l using dedupKeepFirst_ind key with
  | base => simp [dedupKeepFirst, dedupGo]
  | step x xs ih =>
    rw [dedupKeepFirst_cons]
    simp only [List.map_cons]
    refine List.nodup_cons.mpr ⟨?_, ih⟩
    intro hmem
    rcases List.mem_map.mp hmem with ⟨a, ha, hka⟩
    have ha2 := dedupKeepFirst_subset _ _ a ha
    exact (of_decide_eq_true (List.mem_filter.mp ha2).2) hka

/-- In a list sorted by descending weight, the kept (first) row of each key
has maximal weight among that key's rows. -/
theorem dedupKeepFirst_max_of_sorted (w : Row → ℚ) (key : Row → Option Val) :
    ∀ l : List Row, l.Pairwise (fun a b => w b ≤ w a) →
      ∀ r ∈ dedupKeepFirst key l, ∀ s ∈ l, key s = key r → w s ≤ w r := by
  intro l
  induction l using dedupKeepFirst_ind key with
  | base => simp [dedupKeepFirst, dedupGo]
  | step x xs ih =>
    intro hp r hr s hsl hk
    rcases List.pairwise_cons.mp hp with ⟨hx, hxs⟩
    rw [dedupKeepFirst_cons] at hr
    simp only [List.mem_cons] at hr
    rcases hr with rfl | hr
    · rcases List.mem_cons.mp hsl with rfl | hs2
      · exact le_refl _
      · exact hx s hs2
    · have hrf : r ∈ List.filter (fun y => decide (key y ≠ key x)) xs :=
        dedupKeepFirst_subset _ _ r hr
      have hkr : key r ≠ key x := of_decide_eq_true (List.mem_filter.mp hrf).2
      have hsorted : (List.filter (fun y => decide (key y ≠ key x)) xs).Pairwise
          (fun a b => w b ≤ w a) := hxs.sublist (List.filter_sublist xs)
      rcases List.mem_cons.mp hsl with rfl | hs2
      · exact absurd hk.symm hkr
      · by_cases hsx : key s = key x
        · exact absurd (hk.symm.trans hsx) hkr
        · exact ih hsorted r hr s (List.mem_filter.mpr ⟨hs2, decide_eq_true hsx⟩) hk

/-! Shape lemmas for `join_structure_property` and the deduplication step. -/

theorem join_false_eq (ia : Geom → Geom → ℚ) (S P : Frame) :
    join_structure_property false ia S P = joinMergedFiltered S P := by
  unfold join_structure_property
  cases joinMergedFiltered S P with
  | error e => rfl
  | ok M => by_cases hE : M.rows.isEmpty <;> simp [hE]

theorem join_true_eq (ia : Geom → Geom → ℚ) (S P M : Frame)
    (h : joinMergedFiltered S P = Except.ok M) :
    join_structure_property true ia S P =
      Except.ok (if M.rows.isEmpty then M else mfdDedup ia M) := by
  unfold join_structure_property
  rw [h]
  by_cases hE : M.rows.isEmpty <;> simp [hE]

theorem mfdDedup_rows (ia : Geom → Geom → ℚ) (fr : Frame) :
    (mfdDedup ia fr).rows = (dedupKeepFirst sidOf (sortDesc oaVal
      (fr.rows.map (fun r => setColRow "overlap_area" (Val.vNum (rowOverlapArea ia r)) r)))).map
      (dropColRow "overlap_area") := by
  simp [mfdDedup, dropColFrame, addColFrame]

theorem mfdDedup_cols (ia : Geom → Geom → ℚ) (fr : Frame) :
    (mfdDedup ia fr).cols =
      (if "overlap_area" ∈ fr.cols then fr.cols else fr.cols ++ ["overlap_area"]).filter
        (fun x => decide (x ≠ "overlap_area")) := by
  simp [mfdDedup, dropColFrame, addColFrame]

/-- After the deduplication step each `structure_id` appears at most once. -/
theorem mfdDedup_sid_nodup (ia : Geom → Geom → ℚ) (fr : Frame) :
    ((mfdDedup ia fr).rows.map sidOf).Nodup := by
  rw [mfdDedup_rows, List.map_map]
  have h : (sidOf ∘ dropColRow "overlap_area") = sidOf :=
    funext fun r => sidOf_dropColRow_oa r
  rw [h]
  exact dedupKeepFirst_keys_nodup _ _

/-- The record kept by the deduplication step has intersection area ≥ that of
every candidate row with the same `structure_id`. -/
theorem mfdDedup_max (ia : Geom → Geom → ℚ) (fr : Frame) :
    ∀ d ∈ (mfdDedup ia fr).rows, ∀ s ∈ fr.rows, sidOf s = sidOf d →
      rowOverlapArea ia s ≤ rowOverlapArea ia d := by
  intro d hd s hs hsid
  rw [mfdDedup_rows] at hd
  rcases List.mem_map.mp hd with ⟨d', hd', rfl⟩
  have hpair := sortDesc_pairwise oaVal
    (fr.rows.map (fun r => setColRow "overlap_area" (Val.vNum (rowOverlapArea ia r)) r))
  have hmax := dedupKeepFirst_max_of_sorted oaVal sidOf _ hpair d' hd'
  have hsmem : setColRow "overlap_area" (Val.vNum (rowOverlapArea ia s)) s ∈
      sortDesc oaVal (fr.rows.map
        (fun r => setColRow "overlap_area" (Val.vNum (rowOverlapArea ia r)) r)) :=
    (mem_sortDesc _ _ _).mpr (List.mem_map_of_mem _ hs)
  have hsid2 : sidOf (setColRow "overlap_area" (Val.vNum (rowOverlapArea ia s)) s) = sidOf d' := by
    rw [sidOf_setColRow_oa, hsid, sidOf_dropColRow_oa]
  have h1 := hmax _ hsmem hsid2
  have hd'mem : d' ∈ fr.rows.map
      (fun r => setColRow "overlap_area" (Val.vNum (rowOverlapArea ia r)) r) :=
    (mem_sortDesc _ _ _).mp (dedupKeepFirst_subset _ _ d' hd')
  rcases List.mem_map.mp hd'mem with ⟨t, _, rfl⟩
  calc rowOverlapArea ia s
      = oaVal (setColRow "overlap_area" (Val.vNum (rowOverlapArea ia s)) s) :=
        (oaVal_setColRow_oa _ _).symm
    _ ≤ oaVal (setColRow "overlap_area" (Val.vNum (rowOverlapArea ia t)) t) := h1
    _ = rowOverlapArea ia t := oaVal_setColRow_oa _ _
    _ = rowOverlapArea ia
        (dropColRow "overlap_area"
          (setColRow "overlap_area" (Val.vNum (rowOverlapArea ia t)) t)) := by
        rw [rowOverlapArea_dropColRow_oa, rowOverlapArea_setColRow_oa]

/-- C1: with MFD deduplication enabled, after the deduplication step of
`join_structure_property` each building identifier (`structure_id`) appears in
at most one association record, and the record kept for a building has
building-parcel intersection area greater than or equal to the intersection
area of every candidate record (row of the plain, deduplication-disabled join
result) for that same building identifier. -/
theorem C1_dedup_unique_and_best (ia : Geom → Geom → ℚ) (S P F D : Frame)
    (hF : join_structure_property false ia S P = Except.ok F)
    (hD : join_structure_property true ia S P = Except.ok D) :
    (D.rows.map sidOf).Nodup ∧
      ∀ d ∈ D.rows, ∀ s ∈ F.rows, sidOf s = sidOf d →
        rowOverlapArea ia s ≤ rowOverlapArea ia d := by
  have hJF : joinMergedFiltered S P = Except.ok F := by
    rw [← join_false_eq ia S P]
    exact hF
  have hD2 := join_true_eq ia S P F hJF
  rw [hD2] at hD
  injection hD with hD3
  by_cases hE : F.rows.isEmpty
  · rw [if_pos hE] at hD3
    have hnil : D.rows = [] := by
      rw [← hD3]
      exact List.isEmpty_iff.mp hE
    constructor
    · rw [hnil]
      exact List.nodup_nil
    · intro d hd
      rw [hnil] at hd
      exact absurd hd (List.not_mem_nil d)
  · rw [if_neg hE] at hD3
    subst hD3
    exact ⟨mfdDedup_sid_nodup ia F, mfdDedup_max ia F⟩

/-- Concrete intersection-area operation for the C1 witness: parcel 10 overlaps
the building with area 3, parcel 11 with area 7. -/
def iaC1 : Geom → Geom → ℚ := fun _ b => if b = 10 then 3 else 7

/-- Concrete structures frame for the C1 witness. -/
def structC1 : Frame :=
  ⟨["structure_id", "parcel_id", "geometry"], "EPSG:4326",
    [[("structure_id", Val.vStr "s1"), ("parcel_id", Val.vStr "p"), ("geometry", Val.vGeom 1)]]⟩

/-- Concrete parcels frame for the C1 witness: two parcel rows share the
identifier, so the join yields two candidate rows for the one building. -/
def propC1 : Frame :=
  ⟨["parcel_id", "geometry"], "EPSG:4326",
    [[("parcel_id", Val.vStr "p"), ("geometry", Val.vGeom 10)],
     [("parcel_id", Val.vStr "p"), ("geometry", Val.vGeom 11)]]⟩

/-- The plain join result on the C1 witness input. -/
def joinFalseC1 : Frame :=
  match join_structure_property false iaC1 structC1 propC1 with
  | Except.ok f => f
  | Except.error _ => ⟨[], "", []⟩

/-- The deduplicated join result on the C1 witness input. -/
def joinTrueC1 : Frame :=
  match join_structure_property true iaC1 structC1 propC1 with
  | Except.ok f => f
  | Except.error _ => ⟨[], "", []⟩

/-- Constant intersection-area operation: every candidate pairing ties. -/
def iaTie : Geom → Geom → ℚ := fun _ _ => 5

/-- The plain join result on the tie input (two tied candidate rows for the
one building, parcel 10 first and parcel 11 second). -/
def joinPlainTie : Frame :=
  match join_structure_property false iaTie structC1 propC1 with
  | Except.ok f => f
  | Except.error _ => ⟨[], "", []⟩

/-- The deduplicated join result on the tie input. -/
def joinDedupTie : Frame :=
  match join_structure_property true iaTie structC1 propC1 with
  | Except.ok f => f
  | Except.error _ => ⟨[], "", []⟩

/-- C3 counterexample: on a join result with two candidate parcels of exactly
equal intersection area for the same building identifier (parcel 10 occurring
first in input order, parcel 11 second), the deduplication step keeps the
candidate with parcel 11 — the second occurrence, not the first.  First
occurrence wins is therefore false on the code. -/
theorem C3_counterexample :
    (joinPlainTie.rows.map sidOf = [some (Val.vStr "s1"), some (Val.vStr "s1")]) ∧
    (joinPlainTie.rows.map (alookup "geometry_property") =
      [some (Val.vGeom 10), some (Val.vGeom 11)]) ∧
    (joinPlainTie.rows.map (rowOverlapArea iaTie) = [5, 5]) ∧
    (joinDedupTie.rows.map (alookup "geometry_property") = [some (Val.vGeom 11)]) :=
  ⟨rfl, rfl, rfl, rfl⟩

/-- C3 (amended): on a group of join-result rows sharing a building identifier
in which two or more candidate parcels have exactly equal building-parcel
intersection area, the deduplication step of `join_structure_property` keeps
exactly one of that identifier's candidate rows of the plain join result, of
maximal intersection area — so among tied maximal candidates one of them
survives — but which of the tied candidates survives is NOT first occurrence
in input order: the survivor follows the order of pandas' reversed, unstable
argsort (on the two-candidate counterexample the second occurrence is kept),
and no particular tie order is guaranteed by the program.  The theorem states
the guaranteed, tie-order-independent part: every kept record is some plain
join candidate row (minus the temporary ranking column) whose intersection
area is maximal among the same-identifier candidates. -/
theorem C3_kept_is_maximal_candidate (ia : Geom → Geom → ℚ) (S P F D : Frame)
    (hF : join_structure_property false ia S P = Except.ok F)
    (hD : join_structure_property true ia S P = Except.ok D) :
    ∀ d ∈ D.rows, ∃ r ∈ F.rows, d = dropColRow "overlap_area" r ∧ sidOf r = sidOf d ∧
      ∀ s ∈ F.rows, sidOf s = sidOf r → rowOverlapArea ia s ≤ rowOverlapArea ia r := by
  have hJF : joinMergedFiltered S P = Except.ok F := by
    rw [← join_false_eq ia S P]
    exact hF
  have hD2 := join_true_eq ia S P F hJF
  rw [hD2] at hD
  injection hD with hD3
  by_cases hE : F.rows.isEmpty
  · rw [if_pos hE] at hD3
    intro d hd
    rw [← hD3, List.isEmpty_iff.mp hE] at hd
    exact absurd hd (List.not_mem_nil d)
  · rw [if_neg hE] at hD3
    subst hD3
    intro d hd
    have hmax := mfdDedup_max ia F d hd
    rw [mfdDedup_rows] at hd
    rcases List.mem_map.mp hd with ⟨d', hd', rfl⟩
    have hmem2 := (mem_sortDesc _ _ _).mp (dedupKeepFirst_subset _ _ d' hd')
    rcases List.mem_map.mp hmem2 with ⟨r, hr, rfl⟩
    refine ⟨r, hr, dropColRow_setColRow _ _ _, ?_, ?_⟩
    · rw [sidOf_dropColRow_oa, sidOf_setColRow_oa]
    · intro s hs hsid
      have hsid2 : sidOf s = sidOf (dropColRow "overlap_area"
          (setColRow "overlap_area" (Val.vNum (rowOverlapArea ia r)) r)) := by
        rw [sidOf_dropColRow_oa, sidOf_setColRow_oa]
        exact hsid
      have h2 := hmax s hs hsid2
      rwa [rowOverlapArea_dropColRow_oa, rowOverlapArea_setColRow_oa] at h2

theorem C3_kept_is_maximal_candidate_witness :
    (join_structure_property false iaTie structC1 propC1 = Except.ok joinPlainTie) ∧
    (join_structure_property true iaTie structC1 propC1 = Except.ok joinDedupTie) ∧
    (∀ d ∈ joinDedupTie.rows, ∃ r ∈ joinPlainTie.rows,
      d = dropColRow "overlap_area" r ∧ sidOf r = sidOf d ∧
      ∀ s ∈ joinPlainTie.rows, sidOf s = sidOf r →
        rowOverlapArea iaTie s ≤ rowOverlapArea iaTie r) :=
  ⟨rfl, rfl,
    C3_kept_is_maximal_candidate iaTie structC1 propC1 joinPlainTie joinDedupTie rfl rfl⟩

theorem C1_dedup_unique_and_best_witness :
    (join_structure_property false iaC1 structC1 propC1 = Except.ok joinFalseC1) ∧
    (join_structure_property true iaC1 structC1 propC1 = Except.ok joinTrueC1) ∧
    ((joinTrueC1.rows.map sidOf).Nodup ∧
      ∀ d ∈ joinTrueC1.rows, ∀ s ∈ joinFalseC1.rows, sidOf s = sidOf d →
        rowOverlapArea iaC1 s ≤ rowOverlapArea iaC1 d) :=
  ⟨rfl, rfl, C1_dedup_unique_and_best iaC1 structC1 propC1 joinFalseC1 joinTrueC1 rfl rfl⟩

/-! Claim C2: behaviour of `regularize_footprints` for building identifiers
absent from the regularized result. -/

/-- Concrete association row for the C2 input: building b1 with an original
geometry. -/
def rowC2 : Row :=
  [("structure_id", Val.vStr "b1"), ("geometry_structure", Val.vGeom 7),
   ("geometry_property", Val.vGeom 20)]

/-- Concrete association frame for the C2 input. -/
def mergedC2 : Frame :=
  ⟨["structure_id", "geometry_structure", "geometry_property"], "EPSG:4326", [rowC2]⟩

/-- External regularization routine that drops every building. -/
def regDropAll : List (Val × Geom) → List (Val × Geom) := fun _ => []

/-- C2 counterexample: building b1 is absent from the collection returned by
the external regularization routine (which returned an empty collection), and
the returned association record's building geometry is NaN — a missing value —
rather than the original geometry 7.  The claim that the record keeps its
original, non-regularized geometry (and that no record ends up with a
missing/null building geometry) is therefore false on the code, whose
`Series.map(dict)` yields NaN for keys missing from the mapping. -/
theorem C2_counterexample :
    (regDict id id regDropAll mergedC2 = []) ∧
    (mergedC2.rows.map (alookup "geometry_structure") = [some (Val.vGeom 7)]) ∧
    ((regularize_footprints true id id regDropAll mergedC2).rows.map
      (alookup "geometry_structure") = [some Val.vNaN]) :=
  ⟨rfl, rfl, rfl⟩

/-- C2 (amended): for every association collection passed to
`regularize_footprints`, every building identifier absent from the collection
returned by the external regularization routine has its building geometry set
to NaN (a missing value) in the returned association records — the row is
kept, but the original, non-regularized geometry is not restored. -/
theorem C2_absent_id_gets_nan (toU fromU : Geom → Geom)
    (reg : List (Val × Geom) → List (Val × Geom)) (merged : Frame) (r : Row) (s : Val)
    (hr : r ∈ merged.rows) (hs : alookup "structure_id" r = some s)
    (habs : vlookup s (regDict toU fromU reg merged) = none) :
    (regularize_footprints true toU fromU reg merged).rows =
      merged.rows.map (regUpdateRow (regDict toU fromU reg merged)) ∧
    regUpdateRow (regDict toU fromU reg merged) r ∈
      (regularize_footprints true toU fromU reg merged).rows ∧
    alookup "geometry_structure" (regUpdateRow (regDict toU fromU reg merged) r) =
      some Val.vNaN := by
  refine ⟨by simp [regularize_footprints], ?_, ?_⟩
  · simp only [regularize_footprints, if_pos]
    exact List.mem_map_of_mem _ hr
  · unfold regUpdateRow
    rw [alookup_setColRow, if_pos rfl, hs]
    simp [habs]

theorem C2_absent_id_gets_nan_witness :
    (rowC2 ∈ mergedC2.rows) ∧
    (alookup "structure_id" rowC2 = some (Val.vStr "b1")) ∧
    (vlookup (Val.vStr "b1") (regDict id id regDropAll mergedC2) = none) ∧
    ((regularize_footprints true id id regDropAll mergedC2).rows =
      mergedC2.rows.map (regUpdateRow (regDict id id regDropAll mergedC2)) ∧
    regUpdateRow (regDict id id regDropAll mergedC2) rowC2 ∈
      (regularize_footprints true id id regDropAll mergedC2).rows ∧
    alookup "geometry_structure" (regUpdateRow (regDict id id regDropAll mergedC2) rowC2) =
      some Val.vNaN) :=
  ⟨List.mem_singleton.mpr rfl, rfl, rfl,
    C2_absent_id_gets_nan id id regDropAll mergedC2 rowC2 (Val.vStr "b1")
      (List.mem_singleton.mpr rfl) rfl rfl⟩

/-! Claim C10: the column set of the join result. -/

theorem mergeRowsFor_keys (key lsuf rsuf : String) (left right : Frame) (lr : Row) :
    ∀ r ∈ mergeRowsFor key lsuf rsuf left right lr,
      r.map Prod.fst = mergeCols key lsuf rsuf left right := by
  intro r hr
  simp only [mergeRowsFor] at hr
  split at hr
  · simp only [List.mem_singleton] at hr
    subst hr
    rw [List.map_append, List.map_map, List.map_map]
    rfl
  · rcases List.mem_map.mp hr with ⟨rr, _, rfl⟩
    rw [List.map_append, List.map_map, List.map_map]
    rfl

theorem mergeLeft_eq_ok {key lsuf rsuf : String} {left right m0 : Frame}
    (h : mergeLeft key lsuf rsuf left right = Except.ok m0) :
    m0 = mergeLeftOk key lsuf rsuf left right ∧ key ∈ left.cols ∧ key ∈ right.cols := by
  unfold mergeLeft at h
  by_cases h1 : key ∈ left.cols
  · rw [if_pos h1] at h
    by_cases h2 : key ∈ right.cols
    · rw [if_pos h2] at h
      injection h with h3
      exact ⟨h3.symm, h1, h2⟩
    · rw [if_neg h2] at h
      exact absurd h (by simp)
  · rw [if_neg h1] at h
    exact absurd h (by simp)

/-- Every row of the filtered join result has exactly the result's columns as
its cell names. -/
theorem joinMergedFiltered_row_keys (S P F : Frame)
    (h : joinMergedFiltered S P = Except.ok F) :
    ∀ r ∈ F.rows, r.map Prod.fst = F.cols := by
  unfold joinMergedFiltered at h
  cases hm : mergeLeft "parcel_id" "_structure" "_property" S (selectCols (availableCols P) P) with
  | error e =>
    rw [hm] at h
    exact absurd h (by simp)
  | ok m0 =>
    rw [hm] at h
    injection h with h2
    obtain ⟨hm0, _, _⟩ := mergeLeft_eq_ok hm
    have hrows : F.rows = m0.rows.filter hasPropertyGeom := by rw [← h2]
    have hcols : F.cols = m0.cols := by rw [← h2]
    intro r hr
    rw [hrows] at hr
    rw [hcols]
    have hr2 : r ∈ m0.rows := List.mem_of_mem_filter hr
    rw [hm0] at hr2
    simp only [mergeLeftOk] at hr2
    rcases List.mem_flatMap.mp hr2 with ⟨lr, _, hrow⟩
    rw [hm0]
    exact mergeRowsFor_keys _ _ _ _ _ _ r hrow

theorem dropColRow_eq_self (c : String) (r : Row) (h : ∀ p ∈ r, p.1 ≠ c) :
    dropColRow c r = r :=
  List.filter_eq_self.mpr (fun p hp => decide_eq_true (h p hp))

/-- C10 (amended): provided the plain left join's column set does not already
contain a column named `overlap_area`, the association collection returned by
`join_structure_property` never contains the temporary `overlap_area` ranking
column: its column set is exactly that of the plain left join, identical
whether MFD deduplication is enabled or disabled, and deduplication only
removes rows (every row of the deduplicated result is a row of the plain join
result). -/
theorem C10_cols_preserved (dedup : Bool) (ia : Geom → Geom → ℚ) (S P F : Frame)
    (hF : join_structure_property false ia S P = Except.ok F)
    (hOA : "overlap_area" ∉ F.cols) :
    ∃ D, join_structure_property dedup ia S P = Except.ok D ∧
      D.cols = F.cols ∧ "overlap_area" ∉ D.cols ∧ ∀ d ∈ D.rows, d ∈ F.rows := by
  have hJF : joinMergedFiltered S P = Except.ok F := by
    rw [← join_false_eq ia S P]
    exact hF
  cases dedup with
  | false => exact ⟨F, hF, rfl, hOA, fun d hd => hd⟩
  | true =>
    have hD2 := join_true_eq ia S P F hJF
    by_cases hE : F.rows.isEmpty
    · rw [if_pos hE] at hD2
      exact ⟨F, hD2, rfl, hOA, fun d hd => hd⟩
    · rw [if_neg hE] at hD2
      have hcols : (mfdDedup ia F).cols = F.cols := by
        rw [mfdDedup_cols, if_neg hOA, List.filter_append]
        have h1 : F.cols.filter (fun x => decide (x ≠ "overlap_area")) = F.cols :=
          List.filter_eq_self.mpr (fun a ha => decide_eq_true (fun hEq => hOA (hEq ▸ ha)))
        rw [h1]
        simp
      refine ⟨mfdDedup ia F, hD2, hcols, hcols ▸ hOA, ?_⟩
      intro d hd
      rw [mfdDedup_rows] at hd
      rcases List.mem_map.mp hd with ⟨d', hd', rfl⟩
      have hmem1 := dedupKeepFirst_subset _ _ d' hd'
      have hmem2 := (mem_sortDesc _ _ _).mp hmem1
      rcases List.mem_map.mp hmem2 with ⟨t, ht, rfl⟩
      rw [dropColRow_setColRow]
      have hkeys := joinMergedFiltered_row_keys S P F hJF t ht
      have hnooa : ∀ p ∈ t, p.1 ≠ "overlap_area" := by
        intro p hp hEq
        apply hOA
        rw [← hkeys]
        exact hEq ▸ List.mem_map_of_mem Prod.fst hp
      rw [dropColRow_eq_self _ _ hnooa]
      exact ht

/-- Structures frame that already carries a column named `overlap_area`. -/
def structOA : Frame :=
  ⟨["structure_id", "parcel_id", "geometry", "overlap_area"], "EPSG:4326",
    [[("structure_id", Val.vStr "s1"), ("parcel_id", Val.vStr "p"), ("geometry", Val.vGeom 1),
      ("overlap_area", Val.vNum 99)]]⟩

/-- Single-parcel frame for the C10 counterexample. -/
def propOA : Frame :=
  ⟨["parcel_id", "geometry"], "EPSG:4326",
    [[("parcel_id", Val.vStr "p"), ("geometry", Val.vGeom 10)]]⟩

/-- The plain join result on the C10 input. -/
def joinFalseOA : Frame :=
  match join_structure_property false iaTie structOA propOA with
  | Except.ok f => f
  | Except.error _ => ⟨[], "", []⟩

/-- The deduplicated join result on the C10 input. -/
def joinTrueOA : Frame :=
  match join_structure_property true iaTie structOA propOA with
  | Except.ok f => f
  | Except.error _ => ⟨[], "", []⟩

/-- C10 counterexample: when the structures input itself carries a column
named `overlap_area`, the deduplication branch drops that whole column while
the plain join keeps it, so the column set of the result differs between the
two deduplication settings — the claim's universal column-set equality fails. -/
theorem C10_counterexample :
    (join_structure_property false iaTie structOA propOA = Except.ok joinFalseOA) ∧
    (join_structure_property true iaTie structOA propOA = Except.ok joinTrueOA) ∧
    (joinFalseOA.cols =
      ["structure_id", "parcel_id", "geometry_structure", "overlap_area",
        "geometry_property"]) ∧
    (joinTrueOA.cols = ["structure_id", "parcel_id", "geometry_structure",
      "geometry_property"]) ∧
    joinFalseOA.cols ≠ joinTrueOA.cols :=
  ⟨rfl, rfl, rfl, rfl, by decide⟩

theorem C10_cols_preserved_witness :
    (join_structure_property false iaC1 structC1 propC1 = Except.ok joinFalseC1) ∧
    ("overlap_area" ∉ joinFalseC1.cols) ∧
    (∃ D, join_structure_property true iaC1 structC1 propC1 = Except.ok D ∧
      D.cols = joinFalseC1.cols ∧ "overlap_area" ∉ D.cols ∧
      ∀ d ∈ D.rows, d ∈ joinFalseC1.rows) :=
  ⟨rfl, by decide, C10_cols_preserved true iaC1 structC1 propC1 joinFalseC1 rfl (by decide)⟩

/-! Claim C5: the region resolver. -/

theorem determine_states_foldl (f : Rect → Bool) :
    ∀ (l : List (String × Rect)) (acc : List String),
      l.foldl (fun acc p => if f p.2 then acc ++ [p.1] else acc) acc =
        acc ++ (l.filter (fun p => f p.2)).map Prod.fst := by
  intro l
  induction l with
  | nil => intro acc; simp
  | cons x xs ih =>
    intro acc
    simp only [List.foldl_cons]
    by_cases h : f x.2 = true
    · rw [if_pos h, ih]
      simp [List.filter_cons, h, List.append_assoc]
    · rw [if_neg (by simpa using h), ih]
      simp [List.filter_cons, h]

/-- C5: `determine_states` returns exactly the region codes whose static
extent rectangle satisfies the AOI's intersection test (the external shapely
polygon-against-rectangle intersection of the full AOI geometry), with no
duplicates, as a sublist of the STATE_BOUNDS declaration order, and two calls
with pointwise-identical intersection behaviour (in particular identical input
geometry) return the same list. -/
theorem C5_determine_states_exact (f g : Rect → Bool) :
    (determine_states f = (STATE_BOUNDS.filter (fun p => f p.2)).map Prod.fst) ∧
    (∀ s, s ∈ determine_states f ↔ ∃ b : Rect, (s, b) ∈ STATE_BOUNDS ∧ f b = true) ∧
    (determine_states f).Nodup ∧
    List.Sublist (determine_states f) (STATE_BOUNDS.map Prod.fst) ∧
    ((∀ rct, f rct = g rct) → determine_states f = determine_states g) := by
  have hchar : determine_states f = (STATE_BOUNDS.filter (fun p => f p.2)).map Prod.fst := by
    unfold determine_states
    rw [determine_states_foldl f STATE_BOUNDS []]
    simp
  have hsub : List.Sublist (determine_states f) (STATE_BOUNDS.map Prod.fst) := by
    rw [hchar]
    exact List.Sublist.map Prod.fst (List.filter_sublist STATE_BOUNDS)
  refine ⟨hchar, ?_, ?_, hsub, ?_⟩
  · intro s
    rw [hchar]
    constructor
    · intro hmem
      rcases List.mem_map.mp hmem with ⟨q, hq, rfl⟩
      rcases List.mem_filter.mp hq with ⟨hq1, hq2⟩
      exact ⟨q.2, hq1, hq2⟩
    · rintro ⟨b, hb, hf⟩
      exact List.mem_map.mpr ⟨(s, b), List.mem_filter.mpr ⟨hb, hf⟩, rfl⟩
  · exact (show (STATE_BOUNDS.map Prod.fst).Nodup by decide).sublist hsub
  · intro h
    have : f = g := funext h
    rw [this]

/-- A rectangle test hitting exactly NSW and VIC (their extents are the only
ones with western edge between longitudes 141 and 142). -/
def fC5 : Rect → Bool := fun rct => decide (141 ≤ rct.minx ∧ rct.minx ≤ 142)

theorem C5_determine_states_exact_witness :
    (("NSW" ∈ determine_states fC5) ↔
      ∃ b : Rect, ("NSW", b) ∈ STATE_BOUNDS ∧ fC5 b = true) ∧
    (determine_states fC5).Nodup ∧
    determine_states fC5 = ["NSW", "VIC"] :=
  ⟨(C5_determine_states_exact fC5 fC5).2.1 "NSW",
    (C5_determine_states_exact fC5 fC5).2.2.1,
    by norm_num [determine_states, STATE_BOUNDS, fC5, List.foldl_cons, List.foldl_nil]⟩

/-! Claim C8: the spatial filter. -/

/-- C8: `spatial_filter` returns exactly the rows of the (re-projected if not
already canonical) input whose geometry satisfies the AOI-intersection
predicate; the output count is at most the input count; the surviving rows
form an order-preserving sublist; and for an input already in EPSG:4326 the
output is exactly the intersecting subset of the input rows themselves. -/
theorem C8_spatial_filter_exact (reproj : Geom → Geom) (p : Geom → Bool) (gdf : Frame) :
    ((spatial_filter reproj p gdf).rows =
      (if gdf.crs = "EPSG:4326" then gdf.rows
       else gdf.rows.map (reprojectRow reproj)).filter (rowIntersectsAOI p)) ∧
    (spatial_filter reproj p gdf).rows.length ≤ gdf.rows.length ∧
    List.Sublist (spatial_filter reproj p gdf).rows
      (if gdf.crs = "EPSG:4326" then gdf.rows else gdf.rows.map (reprojectRow reproj)) ∧
    (gdf.crs = "EPSG:4326" →
      ((spatial_filter reproj p gdf).rows = gdf.rows.filter (rowIntersectsAOI p) ∧
        ∀ r, r ∈ (spatial_filter reproj p gdf).rows ↔
          r ∈ gdf.rows ∧ rowIntersectsAOI p r = true)) := by
  have hrows : (spatial_filter reproj p gdf).rows =
      (if gdf.crs = "EPSG:4326" then gdf.rows
       else gdf.rows.map (reprojectRow reproj)).filter (rowIntersectsAOI p) := by
    by_cases h : gdf.crs = "EPSG:4326" <;> simp [spatial_filter, h]
  refine ⟨hrows, ?_, ?_, ?_⟩
  · rw [hrows]
    by_cases h : gdf.crs = "EPSG:4326"
    · rw [if_pos h]
      exact List.length_filter_le _ _
    · rw [if_neg h]
      exact le_trans (List.length_filter_le _ _) (by rw [List.length_map])
  · rw [hrows]
    exact List.filter_sublist _
  · intro h
    rw [hrows, if_pos h]
    exact ⟨rfl, fun r => List.mem_filter⟩

/-- Concrete collection for the C8 witness: two features, only the second
intersects the AOI. -/
def gdfC8 : Frame :=
  ⟨["geometry"], "EPSG:4326", [[("geometry", Val.vGeom 1)], [("geometry", Val.vGeom 2)]]⟩

/-- Concrete AOI-intersection predicate for the C8 witness. -/
def pC8 : Geom → Bool := fun g => decide (g = 2)

theorem C8_spatial_filter_exact_witness :
    ((spatial_filter id pC8 gdfC8).rows = [[("geometry", Val.vGeom 2)]]) ∧
    (spatial_filter id pC8 gdfC8).rows.length ≤ gdfC8.rows.length ∧
    ((spatial_filter id pC8 gdfC8).rows = gdfC8.rows.filter (rowIntersectsAOI pC8) ∧
      ∀ r, r ∈ (spatial_filter id pC8 gdfC8).rows ↔
        r ∈ gdfC8.rows ∧ rowIntersectsAOI pC8 r = true) :=
  ⟨rfl, (C8_spatial_filter_exact id pC8 gdfC8).2.1,
    (C8_spatial_filter_exact id pC8 gdfC8).2.2.2 rfl⟩

/-! Claim C4: parcel-sourced boolean site-feature fields of the transform. -/

/-- External intersects test that always succeeds with False. -/
def testOkFalse : Geom → Geom → Except Unit Bool := fun _ _ => Except.ok false

/-- External WKT rendering for concrete inputs. -/
def wktC : Geom → String := fun _ => "W"

/-- Association row whose `has_pool` cell is NaN (a missing value produced by
the join). -/
def rowC4 : Row :=
  [("structure_id", Val.vStr "b1"), ("geometry_structure", Val.vGeom 1),
   ("geometry_property", Val.vGeom 2), ("has_pool", Val.vNaN)]

/-- The output record of the transform on `rowC4`. -/
def recC4 : Row :=
  match transformRow testOkFalse wktC none none [] rowC4 with
  | Except.ok r => r
  | Except.error _ => []

/-- C4 counterexample: a record whose `has_pool` cell is present but NaN (a
missing value) is emitted with POOL = 'TRUE', because Python's float NaN is
truthy — the claim that POOL is 'FALSE' whenever the parcel join produced a
missing/NaN value is false on the code. -/
theorem C4_counterexample :
    (alookup "has_pool" rowC4 = some Val.vNaN) ∧
    (transformRow testOkFalse wktC none none [] rowC4 = Except.ok recC4) ∧
    (alookup "POOL" recC4 = some (Val.vStr "TRUE")) :=
  ⟨rfl, rfl, rfl⟩

/-- C4 (amended): each parcel-sourced boolean site-feature output field is
'FALSE' when the corresponding source column is absent from the row, and
otherwise reflects Python truthiness of the present value — so a present NaN
value yields 'TRUE' (NaN is truthy), except the sport-pitch attribute, which
alone is NaN-guarded.  SPORTCOURT is 'TRUE' exactly when the truthiness-OR of
the tennis-court and basketball-court attributes and the NaN-guarded
sport-pitch attribute holds; with all three columns absent it is 'FALSE'. -/
theorem C4_site_feature_flags (test : Geom → Geom → Except Unit Bool)
    (wkt : Geom → String) (solarU waterU : Option Geom) (meta : Row) (r rec : Row)
    (h : transformRow test wkt solarU waterU meta r = Except.ok rec) :
    (alookup "POOL" rec = some (tfBool (truthy (pyGet r "has_pool" (Val.vBool false))))) ∧
    (alookup "DECK" rec =
      some (tfBool (truthy (pyGet r "has_wooden_deck" (Val.vBool false))))) ∧
    (alookup "TRAMPOLINE" rec =
      some (tfBool (truthy (pyGet r "has_trampoline" (Val.vBool false))))) ∧
    (alookup "ENCLOSURE" rec =
      some (tfBool (truthy (pyGet r "has_enclosure" (Val.vBool false))))) ∧
    (alookup "SPORTCOURT" rec = some (tfBool (
      truthy (pyGet r "has_tennis_court" (Val.vBool false)) ||
      truthy (pyGet r "has_basketball_court" (Val.vBool false)) ||
      (if notNA (pyGet r "has_sport_pitch" Val.vNone) then
        truthy (pyGet r "has_sport_pitch" (Val.vBool false))
      else false)))) ∧
    (alookup "has_pool" r = none → alookup "POOL" rec = some (Val.vStr "FALSE")) ∧
    (alookup "has_wooden_deck" r = none → alookup "DECK" rec = some (Val.vStr "FALSE")) ∧
    (alookup "has_trampoline" r = none →
      alookup "TRAMPOLINE" rec = some (Val.vStr "FALSE")) ∧
    (alookup "has_enclosure" r = none →
      alookup "ENCLOSURE" rec = some (Val.vStr "FALSE")) ∧
    (alookup "has_tennis_court" r = none → alookup "has_basketball_court" r = none →
      alookup "has_sport_pitch" r = none →
      alookup "SPORTCOURT" rec = some (Val.vStr "FALSE")) := by
  unfold transformRow at h
  split at h
  · injection h with h2
    subst h2
    refine ⟨rfl, rfl, rfl, rfl, rfl, ?_, ?_, ?_, ?_, ?_⟩
    · intro hnone
      show some (tfBool (truthy (pyGet r "has_pool" (Val.vBool false)))) =
        some (Val.vStr "FALSE")
      simp [pyGet, hnone, truthy, tfBool]
    · intro hnone
      show some (tfBool (truthy (pyGet r "has_wooden_deck" (Val.vBool false)))) =
        some (Val.vStr "FALSE")
      simp [pyGet, hnone, truthy, tfBool]
    · intro hnone
      show some (tfBool (truthy (pyGet r "has_trampoline" (Val.vBool false)))) =
        some (Val.vStr "FALSE")
      simp [pyGet, hnone, truthy, tfBool]
    · intro hnone
      show some (tfBool (truthy (pyGet r "has_enclosure" (Val.vBool false)))) =
        some (Val.vStr "FALSE")
      simp [pyGet, hnone, truthy, tfBool]
    · intro h1 h2 h3
      show some (tfBool (
        truthy (pyGet r "has_tennis_court" (Val.vBool false)) ||
        truthy (pyGet r "has_basketball_court" (Val.vBool false)) ||
        (if notNA (pyGet r "has_sport_pitch" Val.vNone) then
          truthy (pyGet r "has_sport_pitch" (Val.vBool false))
        else false))) = some (Val.vStr "FALSE")
      simp [pyGet, h1, h2, h3, truthy, tfBool, notNA]
  · exact absurd h (by simp)

theorem C4_site_feature_flags_witness :
    (transformRow testOkFalse wktC none none [] rowC4 = Except.ok recC4) ∧
    ((alookup "POOL" recC4 =
        some (tfBool (truthy (pyGet rowC4 "has_pool" (Val.vBool false))))) ∧
      (alookup "DECK" recC4 =
        some (tfBool (truthy (pyGet rowC4 "has_wooden_deck" (Val.vBool false))))) ∧
      (alookup "TRAMPOLINE" recC4 =
        some (tfBool (truthy (pyGet rowC4 "has_trampoline" (Val.vBool false))))) ∧
      (alookup "ENCLOSURE" recC4 =
        some (tfBool (truthy (pyGet rowC4 "has_enclosure" (Val.vBool false))))) ∧
      (alookup "SPORTCOURT" recC4 = some (tfBool (
        truthy (pyGet rowC4 "has_tennis_court" (Val.vBool false)) ||
        truthy (pyGet rowC4 "has_basketball_court" (Val.vBool false)) ||
        (if notNA (pyGet rowC4 "has_sport_pitch" Val.vNone) then
          truthy (pyGet rowC4 "has_sport_pitch" (Val.vBool false))
        else false)))) ∧
      (alookup "has_pool" rowC4 = none →
        alookup "POOL" recC4 = some (Val.vStr "FALSE")) ∧
      (alookup "has_wooden_deck" rowC4 = none →
        alookup "DECK" recC4 = some (Val.vStr "FALSE")) ∧
      (alookup "has_trampoline" rowC4 = none →
        alookup "TRAMPOLINE" recC4 = some (Val.vStr "FALSE")) ∧
      (alookup "has_enclosure" rowC4 = none →
        alookup "ENCLOSURE" recC4 = some (Val.vStr "FALSE")) ∧
      (alookup "has_tennis_court" rowC4 = none →
        alookup "has_basketball_court" rowC4 = none →
        alookup "has_sport_pitch" rowC4 = none →
        alookup "SPORTCOURT" recC4 = some (Val.vStr "FALSE"))) :=
  ⟨rfl, C4_site_feature_flags testOkFalse wktC none none [] rowC4 recC4 rfl⟩

/-! Claim C7: the auxiliary-feature intersection flags. -/

theorem safeIntersects_true_iff (test : Geom → Geom → Except Unit Bool) (g : Geom)
    (o : Option Geom) :
    safeIntersects test g o = true ↔ ∃ u, o = some u ∧ test g u = Except.ok true := by
  cases o with
  | none => simp [safeIntersects]
  | some u =>
    simp only [safeIntersects]
    cases ht : test g u with
    | ok b =>
      cases b
      · simp [ht]
      · simp [ht]
    | error e => simp [ht]

/-- C7: for every association record with actual geometries, the transform
produces a record (the per-row intersection test never propagates an error,
whatever the external test does), whose solar-panel flag is 'SOLAR PANEL'
exactly when a solar union exists and the external intersects test succeeds
with True on it — so the flag is the no-solar value when the union is absent
(empty collection or failed union), when the test returns False, and when the
test raises; likewise for the water-heater flag.  The precomputed union is
None for an empty collection and None when the external union raises. -/
theorem C7_aux_intersection_flags (test : Geom → Geom → Except Unit Bool)
    (wkt : Geom → String) (solarU waterU : Option Geom) (meta r : Row) (sg pg : Geom)
    (hgs : alookup "geometry_structure" r = some (Val.vGeom sg))
    (hgp : alookup "geometry_property" r = some (Val.vGeom pg)) :
    (∃ rec, transformRow test wkt solarU waterU meta r = Except.ok rec ∧
      ((alookup "ROOFSOLAR" rec = some (Val.vStr "SOLAR PANEL")) ↔
        ∃ u, solarU = some u ∧ test sg u = Except.ok true) ∧
      ((alookup "ROOFWATERHEATER" rec = some (Val.vStr "WATER HEATER")) ↔
        ∃ u, waterU = some u ∧ test sg u = Except.ok true) ∧
      ((alookup "ROOFSOLAR" rec = some (Val.vStr "SOLAR PANEL")) ∨
        (alookup "ROOFSOLAR" rec = some (Val.vStr "NO SOLAR PANEL"))) ∧
      ((alookup "ROOFWATERHEATER" rec = some (Val.vStr "WATER HEATER")) ∨
        (alookup "ROOFWATERHEATER" rec = some (Val.vStr "NO WATER HEATER")))) ∧
    (∀ (uAll : List Geom → Except Unit Geom) (cs : List String) (crs2 : String),
      frameUnion uAll ⟨cs, crs2, ([] : List Row)⟩ = none) ∧
    (∀ (uAll : List Geom → Except Unit Geom) (fr : Frame) (e : Unit),
      uAll (geomsOf fr) = Except.error e → frameUnion uAll fr = none) := by
  refine ⟨?_, ?_, ?_⟩
  · have hex : ∃ rec, transformRow test wkt solarU waterU meta r = Except.ok rec := by
      unfold transformRow
      rw [hgs, hgp]
      exact ⟨_, rfl⟩
    obtain ⟨rec, hrec⟩ := hex
    have hinv := hrec
    unfold transformRow at hinv
    rw [hgs, hgp] at hinv
    injection hinv with h2
    subst h2
    refine ⟨_, hrec, ?_, ?_, ?_, ?_⟩
    · show (some (if safeIntersects test sg solarU = true then Val.vStr "SOLAR PANEL"
        else Val.vStr "NO SOLAR PANEL") = some (Val.vStr "SOLAR PANEL")) ↔
        (∃ u, solarU = some u ∧ test sg u = Except.ok true)
      rw [← safeIntersects_true_iff test sg solarU]
      by_cases hs : safeIntersects test sg solarU = true
      · simp [hs]
      · simp [hs]
    · show (some (if safeIntersects test sg waterU = true then Val.vStr "WATER HEATER"
        else Val.vStr "NO WATER HEATER") = some (Val.vStr "WATER HEATER")) ↔
        (∃ u, waterU = some u ∧ test sg u = Except.ok true)
      rw [← safeIntersects_true_iff test sg waterU]
      by_cases hs : safeIntersects test sg waterU = true
      · simp [hs]
      · simp [hs]
    · show (some (if safeIntersects test sg solarU = true then Val.vStr "SOLAR PANEL"
        else Val.vStr "NO SOLAR PANEL") = some (Val.vStr "SOLAR PANEL")) ∨
        (some (if safeIntersects test sg solarU = true then Val.vStr "SOLAR PANEL"
        else Val.vStr "NO SOLAR PANEL") = some (Val.vStr "NO SOLAR PANEL"))
      by_cases hs : safeIntersects test sg solarU = true
      · exact Or.inl (by rw [if_pos hs])
      · exact Or.inr (by rw [if_neg hs])
    · show (some (if safeIntersects test sg waterU = true then Val.vStr "WATER HEATER"
        else Val.vStr "NO WATER HEATER") = some (Val.vStr "WATER HEATER")) ∨
        (some (if safeIntersects test sg waterU = true then Val.vStr "WATER HEATER"
        else Val.vStr "NO WATER HEATER") = some (Val.vStr "NO WATER HEATER"))
      by_cases hs : safeIntersects test sg waterU = true
      · exact Or.inl (by rw [if_pos hs])
      · exact Or.inr (by rw [if_neg hs])
  · intro uAll cs crs2
    simp [frameUnion]
  · intro uAll fr e he
    unfold frameUnion
    by_cases hE : fr.rows.isEmpty
    · rw [if_pos hE]
    · rw [if_neg hE, he]

/-- External intersects test for the C7 witness: True exactly on the union
handle 5; the water union is absent. -/
def testC7 : Geom → Geom → Except Unit Bool := fun _ u => Except.ok (decide (u = 5))

/-- Concrete association row for the C7 witness. -/
def rowC7 : Row := [("geometry_structure", Val.vGeom 1), ("geometry_property", Val.vGeom 2)]

theorem C7_aux_intersection_flags_witness :
    (alookup "geometry_structure" rowC7 = some (Val.vGeom 1)) ∧
    (alookup "geometry_property" rowC7 = some (Val.vGeom 2)) ∧
    ((∃ rec, transformRow testC7 wktC (some 5) none [] rowC7 = Except.ok rec ∧
      ((alookup "ROOFSOLAR" rec = some (Val.vStr "SOLAR PANEL")) ↔
        ∃ u, (some 5 : Option Geom) = some u ∧ testC7 1 u = Except.ok true) ∧
      ((alookup "ROOFWATERHEATER" rec = some (Val.vStr "WATER HEATER")) ↔
        ∃ u, (none : Option Geom) = some u ∧ testC7 1 u = Except.ok true) ∧
      ((alookup "ROOFSOLAR" rec = some (Val.vStr "SOLAR PANEL")) ∨
        (alookup "ROOFSOLAR" rec = some (Val.vStr "NO SOLAR PANEL"))) ∧
      ((alookup "ROOFWATERHEATER" rec = some (Val.vStr "WATER HEATER")) ∨
        (alookup "ROOFWATERHEATER" rec = some (Val.vStr "NO WATER HEATER")))) ∧
    (∀ (uAll : List Geom → Except Unit Geom) (cs : List String) (crs2 : String),
      frameUnion uAll ⟨cs, crs2, ([] : List Row)⟩ = none) ∧
    (∀ (uAll : List Geom → Except Unit Geom) (fr : Frame) (e : Unit),
      uAll (geomsOf fr) = Except.error e → frameUnion uAll fr = none)) :=
  ⟨rfl, rfl, C7_aux_intersection_flags testC7 wktC (some 5) none [] rowC7 1 2 rfl rfl⟩

/-! Claim C6: the empty parcel collection flows through the join. -/

theorem string_append_ne (c s t : String)
    (h : t.data.drop (t.data.length - s.data.length) ≠ s.data) : c ++ s ≠ t := by
  intro he
  have hd : c.data ++ s.data = t.data := by
    rw [← String.data_append, he]
  have hl : c.data.length + s.data.length = t.data.length := by
    rw [← List.length_append, hd]
  apply h
  have hn : t.data.length - s.data.length = c.data.length := by omega
  rw [hn, ← hd, List.drop_left]

theorem alookup_eq_none (k : String) (l : Row) (h : ∀ p ∈ l, p.1 ≠ k) :
    alookup k l = none := by
  induction l with
  | nil => rfl
  | cons p l ih =>
    show (if p.1 = k then some p.2 else alookup k l) = none
    rw [if_neg (h p (List.mem_cons_self _ _))]
    exact ih (fun q hq => h q (List.mem_cons_of_mem _ hq))

/-- Joining any structures frame (with a `parcel_id` column and, as for real
structure data, no column named `geometry_property`) against the explicitly
typed empty parcel collection succeeds and every joined row is dropped by the
match filter: the merged result is empty. -/
theorem joinMergedFiltered_empty_parcels (S : Frame)
    (hkey : "parcel_id" ∈ S.cols) (hgp : "geometry_property" ∉ S.cols) :
    ∃ M, joinMergedFiltered S emptyParcels = Except.ok M ∧ M.rows = [] := by
  unfold joinMergedFiltered
  have hsel : selectCols (availableCols emptyParcels) emptyParcels =
      Frame.mk ["parcel_id", "geometry"] "EPSG:4326" [] := rfl
  rw [hsel]
  have hkey2 : "parcel_id" ∈ (Frame.mk ["parcel_id", "geometry"] "EPSG:4326"
      ([] : List Row)).cols := by
    simp
  unfold mergeLeft
  rw [if_pos hkey, if_pos hkey2]
  refine ⟨_, rfl, ?_⟩
  show (mergeLeftOk "parcel_id" "_structure" "_property" S _).rows.filter hasPropertyGeom = []
  rw [List.filter_eq_nil_iff]
  intro rr hrr
  simp only [mergeLeftOk] at hrr
  rcases List.mem_flatMap.mp hrr with ⟨lr, _, hrow⟩
  simp only [mergeRowsFor, List.filter_nil, List.isEmpty_nil, if_true,
    List.mem_singleton] at hrow
  subst hrow
  have hnone : alookup "geometry_property" (S.cols.map (fun c =>
      (renCol (mergeOverlap "parcel_id" S
        (Frame.mk ["parcel_id", "geometry"] "EPSG:4326" [])) "_structure" c,
       pyGet lr c Val.vNaN))) = none := by
    apply alookup_eq_none
    intro p hp
    rcases List.mem_map.mp hp with ⟨c, hc, rfl⟩
    show renCol _ "_structure" c ≠ "geometry_property"
    unfold renCol
    by_cases hov : c ∈ mergeOverlap "parcel_id" S
        (Frame.mk ["parcel_id", "geometry"] "EPSG:4326" [])
    · rw [if_pos hov]
      exact string_append_ne c "_structure" "geometry_property" (by decide)
    · rw [if_neg hov]
      exact fun hEq => hgp (hEq ▸ hc)
  simp only [hasPropertyGeom, alookup_append, hnone, Option.none_or]
  by_cases hn : renCol (mergeOverlap "parcel_id" S
      (Frame.mk ["parcel_id", "geometry"] "EPSG:4326" [])) "_property" "geometry" =
      "geometry_property"
  · simp [rightDataCols, alookup, hn, notNA]
  · simp [rightDataCols, alookup, hn]

/-- C6: when no region yields any parcel data, `load_property_data` returns
the correctly-typed empty parcel collection (columns `parcel_id` and
`geometry`) rather than raising, and `join_structure_property` on that empty
collection succeeds (no KeyError/type error) with an empty association result,
which is exactly the fatal no-associations condition checked in `main`. -/
theorem C6_empty_parcels_no_crash (states : List String)
    (loadState : String → Option Frame) (dedup : Bool) (ia : Geom → Geom → ℚ) (S : Frame)
    (hload : ∀ s ∈ states, loadState s = none)
    (hkey : "parcel_id" ∈ S.cols) (hgp : "geometry_property" ∉ S.cols) :
    load_property_data states loadState = emptyParcels ∧
    emptyParcels.cols = ["parcel_id", "geometry"] ∧
    ∃ F, join_structure_property dedup ia S (load_property_data states loadState) =
      Except.ok F ∧ F.rows = [] := by
  have hparts : states.filterMap loadState = [] := by
    rw [List.filterMap_eq_nil_iff]
    exact hload
  have hempty : load_property_data states loadState = emptyParcels := by
    unfold load_property_data
    simp [hparts]
  refine ⟨hempty, rfl, ?_⟩
  rw [hempty]
  obtain ⟨M, hM, hMrows⟩ := joinMergedFiltered_empty_parcels S hkey hgp
  refine ⟨M, ?_, hMrows⟩
  unfold join_structure_property
  rw [hM]
  have hE : M.rows.isEmpty = true := by
    rw [hMrows]
    rfl
  show (if M.rows.isEmpty = true then Except.ok M
    else if dedup = true then Except.ok (mfdDedup ia M) else Except.ok M) = Except.ok M
  rw [if_pos hE]

theorem C6_empty_parcels_no_crash_witness :
    (∀ s ∈ (["NSW"] : List String), (fun _ : String => (none : Option Frame)) s = none) ∧
    ("parcel_id" ∈ structC1.cols) ∧
    ("geometry_property" ∉ structC1.cols) ∧
    (load_property_data ["NSW"] (fun _ => none) = emptyParcels ∧
      emptyParcels.cols = ["parcel_id", "geometry"] ∧
      ∃ F, join_structure_property true iaC1 structC1
        (load_property_data ["NSW"] (fun _ => none)) = Except.ok F ∧ F.rows = []) :=
  ⟨fun _ _ => rfl, by decide, by decide,
    C6_empty_parcels_no_crash ["NSW"] (fun _ => none) true iaC1 structC1
      (fun _ _ => rfl) (by decide) (by decide)⟩

/-! Claim C9: the join when some documented parcel columns are absent. -/

theorem property_cols_no_suffix :
    ∀ c ∈ property_cols, ∀ d : String,
      d ++ "_structure" ≠ c ∧ d ++ "_property" ≠ c := by
  intro c hc d
  simp only [property_cols, List.mem_cons, List.not_mem_nil, or_false] at hc
  rcases hc with rfl | rfl | rfl | rfl | rfl | rfl | rfl | rfl | rfl | rfl | rfl | rfl |
    rfl | rfl | rfl | rfl <;>
    exact ⟨string_append_ne _ _ _ (by decide), string_append_ne _ _ _ (by decide)⟩

theorem property_cols_ne_oa : ∀ c ∈ property_cols, c ≠ "overlap_area" := by decide

theorem joinMergedFiltered_ok (S P : Frame)
    (h1 : "parcel_id" ∈ S.cols) (h2 : "parcel_id" ∈ P.cols) :
    ∃ M, joinMergedFiltered S P = Except.ok M := by
  unfold joinMergedFiltered mergeLeft
  rw [if_pos h1, if_pos (show "parcel_id" ∈ (selectCols (availableCols P) P).cols from
    List.mem_filter.mpr ⟨by decide, decide_eq_true h2⟩)]
  exact ⟨_, rfl⟩

theorem joinMergedFiltered_cols (S P M : Frame)
    (h : joinMergedFiltered S P = Except.ok M) :
    M.cols = mergeCols "parcel_id" "_structure" "_property" S
      (selectCols (availableCols P) P) := by
  unfold joinMergedFiltered at h
  cases hm : mergeLeft "parcel_id" "_structure" "_property" S
      (selectCols (availableCols P) P) with
  | error e =>
    rw [hm] at h
    exact absurd h (by simp)
  | ok m0 =>
    rw [hm] at h
    injection h with h2
    obtain ⟨hm0, _, _⟩ := mergeLeft_eq_ok hm
    rw [← h2, hm0]
    rfl

/-- Membership of a documented site-feature column (neither the key nor the
geometry) in the merge result's columns is exactly its presence in the parcel
collection, provided the structures side does not share the column name. -/
theorem mergeCols_site_mem (S P : Frame) (c : String)
    (hc : c ∈ property_cols) (hc1 : c ≠ "parcel_id") (hc2 : c ≠ "geometry")
    (hcS : c ∉ S.cols) :
    (c ∈ mergeCols "parcel_id" "_structure" "_property" S
      (selectCols (availableCols P) P)) ↔ c ∈ P.cols := by
  unfold mergeCols
  rw [List.mem_append]
  constructor
  · rintro (hmem | hmem)
    · rcases List.mem_map.mp hmem with ⟨d, hd, hEq⟩
      unfold renCol at hEq
      by_cases hov : d ∈ mergeOverlap "parcel_id" S (selectCols (availableCols P) P)
      · rw [if_pos hov] at hEq
        exact absurd hEq ((property_cols_no_suffix c hc d).1)
      · rw [if_neg hov] at hEq
        exact absurd (hEq ▸ hd) hcS
    · rcases List.mem_map.mp hmem with ⟨d, hd, hEq⟩
      unfold renCol at hEq
      by_cases hov : d ∈ mergeOverlap "parcel_id" S (selectCols (availableCols P) P)
      · rw [if_pos hov] at hEq
        exact absurd hEq ((property_cols_no_suffix c hc d).2)
      · rw [if_neg hov] at hEq
        subst hEq
        have hd2 : d ∈ (selectCols (availableCols P) P).cols := List.mem_of_mem_filter hd
        have hd3 : d ∈ property_cols.filter (fun x => decide (x ∈ P.cols)) := hd2
        exact of_decide_eq_true (List.mem_filter.mp hd3).2
  · intro hP
    apply Or.inr
    have hnov : c ∉ mergeOverlap "parcel_id" S (selectCols (availableCols P) P) :=
      fun hov => hcS (List.mem_of_mem_filter hov)
    refine List.mem_map.mpr ⟨c, ?_, ?_⟩
    · show c ∈ (selectCols (availableCols P) P).cols.filter (fun x => decide (x ≠ "parcel_id"))
      refine List.mem_filter.mpr ⟨?_, decide_eq_true hc1⟩
      show c ∈ property_cols.filter (fun x => decide (x ∈ P.cols))
      exact List.mem_filter.mpr ⟨hc, decide_eq_true hP⟩
    · unfold renCol
      rw [if_neg hnov]

/-- C9: for every parcel collection in which some documented site-feature
columns are absent, `join_structure_property` still performs the left join on
`parcel_id` without raising, and the result carries forward exactly the subset
of documented parcel columns that are actually present in the parcel
collection (for structures data that does not itself use the site-feature
column names). -/
theorem C9_join_available_columns (dedup : Bool) (ia : Geom → Geom → ℚ) (S P : Frame)
    (hkeyS : "parcel_id" ∈ S.cols) (hkeyP : "parcel_id" ∈ P.cols)
    (hS : ∀ c ∈ property_cols, c = "parcel_id" ∨ c = "geometry" ∨ c ∉ S.cols) :
    ∃ F, join_structure_property dedup ia S P = Except.ok F ∧
      ∀ c ∈ property_cols, c ≠ "parcel_id" → c ≠ "geometry" →
        (c ∈ F.cols ↔ c ∈ P.cols) := by
  obtain ⟨M, hM⟩ := joinMergedFiltered_ok S P hkeyS hkeyP
  have hMcols := joinMergedFiltered_cols S P M hM
  have hsite : ∀ c ∈ property_cols, c ≠ "parcel_id" → c ≠ "geometry" →
      (c ∈ M.cols ↔ c ∈ P.cols) := by
    intro c hc h1 h2
    rw [hMcols]
    apply mergeCols_site_mem S P c hc h1 h2
    rcases hS c hc with h | h | h
    · exact absurd h h1
    · exact absurd h h2
    · exact h
  cases dedup with
  | false =>
    refine ⟨M, ?_, hsite⟩
    rw [join_false_eq]
    exact hM
  | true =>
    have hD2 := join_true_eq ia S P M hM
    by_cases hE : M.rows.isEmpty
    · rw [if_pos hE] at hD2
      exact ⟨M, hD2, hsite⟩
    · rw [if_neg hE] at hD2
      refine ⟨mfdDedup ia M, hD2, ?_⟩
      intro c hc h1 h2
      have hcoa : c ≠ "overlap_area" := property_cols_ne_oa c hc
      rw [← hsite c hc h1 h2, mfdDedup_cols]
      constructor
      · intro hmem
        rcases List.mem_filter.mp hmem with ⟨hmem2, _⟩
        by_cases hoaM : "overlap_area" ∈ M.cols
        · rwa [if_pos hoaM] at hmem2
        · rw [if_neg hoaM] at hmem2
          rcases List.mem_append.mp hmem2 with h | h
          · exact h
          · exact absurd (List.mem_singleton.mp h) hcoa
      · intro hmem
        refine List.mem_filter.mpr ⟨?_, decide_eq_true hcoa⟩
        by_cases hoaM : "overlap_area" ∈ M.cols
        · rwa [if_pos hoaM]
        · rw [if_neg hoaM]
          exact List.mem_append.mpr (Or.inl hmem)

/-- Parcel collection for the C9 witness: only `has_pool` among the optional
site-feature columns is present. -/
def propC9 : Frame :=
  ⟨["parcel_id", "geometry", "has_pool"], "EPSG:4326",
    [[("parcel_id", Val.vStr "p"), ("geometry", Val.vGeom 10), ("has_pool", Val.vBool true)]]⟩

theorem C9_join_available_columns_witness :
    ("parcel_id" ∈ structC1.cols) ∧ ("parcel_id" ∈ propC9.cols) ∧
    (∀ c ∈ property_cols, c = "parcel_id" ∨ c = "geometry" ∨ c ∉ structC1.cols) ∧
    (∃ F, join_structure_property true iaC1 structC1 propC9 = Except.ok F ∧
      ∀ c ∈ property_cols, c ≠ "parcel_id" → c ≠ "geometry" →
        (c ∈ F.cols ↔ c ∈ propC9.cols)) :=
  ⟨by decide, by decide, by decide,
    C9_join_available_columns true iaC1 structC1 propC9 (by decide) (by decide) (by decide)⟩

end AU
